import Mathlib

/-!
Verification of the answer-evaluation pipeline of the AI-Interview-Assistant
backend (backend/app/services/ml_engine.py with constants from
backend/app/config.py).

Embedding conventions:
- All numeric scores are exact rationals.  The Python code computes with IEEE
  floats and applies presentation rounding (round(x, 1) and round(x, 3)) when
  storing scores; these roundings are display-level and are elided here, so
  every formula is modelled exactly.  Python int(x) truncation toward zero is
  modelled by pyTrunc.
- Python strings are Lean Strings; str.split() / str.strip() / str.lower()
  are reimplemented (pySplit, pyStrip, lowerS) on the character list for
  ASCII input, which is the only input class the heuristics target.
- The regular expressions of the source are reimplemented as equivalent
  scanners over character lists; each scanner documents the pattern it
  models and why the translation is faithful.
- External collaborators (the sentence-transformer encoder, LanguageTool and
  the voice-analysis service) are modelled as oracle parameters, exactly at
  the try/except boundaries where the source degrades to its documented
  fallbacks.  The cosine-similarity formula itself (_cosine_similarity) is
  modelled over real vectors.
-/

namespace MLEngine

/-- Python str.split() whitespace class (space, tab, newline, CR, VT, FF),
which coincides with the regex class backslash-s used by the source. -/
def isPyWs (c : Char) : Bool :=
  c = ' ' || c = '\t' || c = '\n' || c = '\r' || c = Char.ofNat 11 || c = Char.ofNat 12

/-- Word character for regex word boundaries: [A-Za-z0-9_] (ASCII input). -/
def isWordChar (c : Char) : Bool := c.isAlphanum || c = '_'

/-- Helper for pySplit: accumulate maximal non-whitespace runs. -/
def splitWsAux : List Char → List Char → List (List Char)
  | [], acc => if acc.isEmpty then [] else [acc.reverse]
  | c :: cs, acc =>
    if isPyWs c then
      if acc.isEmpty then splitWsAux cs [] else acc.reverse :: splitWsAux cs []
    else splitWsAux cs (c :: acc)

/-- Python str.split() with no argument: split on whitespace runs, no empty
pieces. -/
def pySplit (s : String) : List String := (splitWsAux s.data []).map String.mk

/-- Python str.strip(): drop leading and trailing whitespace. -/
def pyStrip (s : String) : String :=
  String.mk (((s.data.dropWhile isPyWs).reverse.dropWhile isPyWs).reverse)

/-- Python str.lower() for ASCII text. -/
def lowerS (s : String) : String := String.mk (s.data.map Char.toLower)

/-- Maximal runs of characters satisfying p (empties dropped). -/
def runsAux (p : Char → Bool) : List Char → List Char → List (List Char)
  | [], acc => if acc.isEmpty then [] else [acc.reverse]
  | c :: cs, acc =>
    if p c then runsAux p cs (c :: acc)
    else if acc.isEmpty then runsAux p cs [] else acc.reverse :: runsAux p cs []

/-- Maximal word-character runs of a string (the regex word tokens). -/
def wordRuns (s : String) : List String := (runsAux isWordChar s.data []).map String.mk

/-- True when every character of the string is an ASCII letter. -/
def isAlphaStr (s : String) : Bool := s.data.all Char.isAlpha

/-- re.findall of the pattern word-boundary [a-zA-Z]{3,} word-boundary used
throughout the source: with both boundaries the matches are exactly the
maximal word-character runs that are purely alphabetic and of length at
least 3 (a run touching a digit or underscore has no inner boundary, so the
regex rejects it). -/
def alphaTokens3 (s : String) : List String :=
  (wordRuns s).filter (fun w => isAlphaStr w && 3 ≤ w.length)

/-- First-occurrence deduplication (Python set / dict.fromkeys membership). -/
def dedupFirstAux (seen : List String) : List String → List String
  | [] => []
  | x :: xs =>
    if seen.contains x then dedupFirstAux seen xs
    else x :: dedupFirstAux (x :: seen) xs

/-- Deduplicate keeping the first occurrence of each string. -/
def dedupFirst (l : List String) : List String := dedupFirstAux [] l

/-- Does the first list start with the second list (pattern)? -/
def startsWithL : List Char → List Char → Bool
  | _, [] => true
  | [], _ :: _ => false
  | a :: as, b :: bs => a = b && startsWithL as bs

/-- Python substring membership (needle in hay). -/
def containsSubL (needle : List Char) : List Char → Bool
  | [] => needle.isEmpty
  | hay@(_ :: t) => startsWithL hay needle || containsSubL needle t

/-- Python needle in hay for strings. -/
def pyIn (needle hay : String) : Bool := containsSubL needle.data hay.data

/-- Python int() applied to a rational: truncation toward zero. -/
def pyTrunc (q : ℚ) : ℤ := if 0 ≤ q then ⌊q⌋ else ⌈q⌉

/-- _clamp_score from ml_engine.py: clamp to [MIN_SCORE, MAX_SCORE] = [0,100]
(the final round(·, 1) is display rounding, elided). -/
def clampScore (q : ℚ) : ℚ := max 0 (min 100 q)

/-- Count occurrences of each string, in first-occurrence order
(Python dict counting loop). -/
def bumpCount (w : String) : List (String × ℕ) → List (String × ℕ)
  | [] => [(w, 1)]
  | (k, n) :: rest => if k = w then (k, n + 1) :: rest else (k, n) :: bumpCount w rest

/-- Association list of word counts in first-occurrence order. -/
def wordCounts (ws : List String) : List (String × ℕ) :=
  ws.foldl (fun acc w => bumpCount w acc) []

/-- max(word_counts.values()) with 0 for the empty table. -/
def maxCount (l : List (String × ℕ)) : ℕ := l.foldr (fun p m => max p.2 m) 0

/-! ## Delivery: words per minute (config.py constants inlined as rationals) -/

/-- compute_wpm from ml_engine.py; round(·, 1) elided. -/
def computeWpm (transcript : String) (durationSeconds : ℚ) : ℚ :=
  if transcript = "" ∨ durationSeconds ≤ 0 then 0
  else
    let wordCount : ℚ := (pySplit transcript).length
    let durationMinutes := durationSeconds / 60
    if durationMinutes ≤ 0 then 0 else wordCount / durationMinutes

/-- get_wpm_assessment from ml_engine.py: WPM_TOO_SLOW = 100,
WPM_TOO_FAST = 180, OPTIMAL_WPM_MIN = 130, OPTIMAL_WPM_MAX = 160. -/
def getWpmAssessment (wpm : ℚ) : String × ℤ :=
  if wpm < 100 then
    ("Speaking too slowly - try to maintain better flow", min 30 (pyTrunc ((100 - wpm) * (1/2))))
  else if 180 < wpm then
    ("Speaking too fast - slow down for clarity", min 30 (pyTrunc ((wpm - 180) * (3/10))))
  else if 130 ≤ wpm ∧ wpm ≤ 160 then
    ("Good speaking pace", 0)
  else if wpm < 130 then
    ("Slightly slow - could pick up the pace a bit", 5)
  else
    ("Slightly fast - could slow down a bit", 5)

/-- The pace penalty exactly as claim C8 words it: 0 on the optimal range
[130,160], 5 on the near-optimal shoulders, and outside the acceptable
window [100,180] a linear penalty capped at 30 scaled by the distance from
the nearest bound of that window, coefficient 0.5 below 100 and 0.3 above
180 (integer-truncated as the code does). -/
def pacePenaltySpec (wpm : ℚ) : ℤ :=
  if 130 ≤ wpm ∧ wpm ≤ 160 then 0
  else if (100 ≤ wpm ∧ wpm < 130) ∨ (160 < wpm ∧ wpm ≤ 180) then 5
  else if wpm < 100 then min 30 (pyTrunc ((100 - wpm) * (1/2)))
  else min 30 (pyTrunc ((wpm - 180) * (3/10)))

/-! ## Filler-word detection -/

/-- FILLER_WORDS from config.py (config order preserved). -/
def fillerWords : List String :=
  ["um", "uh", "umm", "uhh", "er", "err",
   "like", "you know", "basically", "actually",
   "literally", "honestly", "right", "okay",
   "so", "well", "i mean", "kind of", "sort of",
   "you see", "i guess", "anyway"]

/-- Is the first character of the list a word character? -/
def headIsWord : List Char → Bool
  | [] => false
  | c :: _ => isWordChar c

/-- Non-overlapping count of a literal pattern with a regex word boundary on
each side, i.e. re.findall of word-boundary re.escape(pat) word-boundary.
Every pattern used (fillers, lowercased) starts and ends with a word
character, so the boundaries amount to: the previous character (if any) is
not a word character, and the character following the match (if any) is not
a word character.  Fuel is the text length, sufficient because every step
consumes at least one character. -/
def countLitWB (fuel : ℕ) (pat : List Char) (prevIsWord : Bool) (text : List Char) : ℕ :=
  match fuel with
  | 0 => 0
  | fuel + 1 =>
    match text with
    | [] => 0
    | c :: rest =>
      if !prevIsWord && startsWithL text pat && !headIsWord (text.drop pat.length) then
        1 + countLitWB fuel pat true (text.drop pat.length)
      else
        countLitWB fuel pat (isWordChar c) rest

/-- count_fillers from ml_engine.py: total count and per-filler detail
strings of the form filler (count). -/
def countFillers (transcript : String) : ℕ × List String :=
  if transcript = "" then (0, [])
  else
    let tl := (lowerS transcript).data
    fillerWords.foldl
      (fun (acc : ℕ × List String) filler =>
        let c := countLitWB (tl.length + 1) filler.data false tl
        if 0 < c then (acc.1 + c, acc.2 ++ [filler ++ " (" ++ toString c ++ ")"])
        else acc)
      (0, [])

/-! ## Grammar-error estimation -/

/-- Apostrophe character, built numerically to keep source strings plain. -/
def aposC : Char := Char.ofNat 39

/-- Match, at the current position, a two-word regex of the shape
word-boundary lit1 whitespace+ lit2 word-boundary (the shape of every
pattern in _heuristic_grammar_check).  The caller guarantees the position
sits at a word boundary.  Greedy whitespace needs no backtracking because
both literals start with a word character. -/
def matchTwoWordAt (w1 w2 : List Char) (text : List Char) : Bool :=
  if startsWithL text w1 then
    let rest := text.drop w1.length
    let ws := rest.takeWhile isPyWs
    if ws.isEmpty then false
    else
      let rest2 := rest.drop ws.length
      startsWithL rest2 w2 && !headIsWord (rest2.drop w2.length)
  else false

/-- re.search for the two-word boundary patterns: scan every position that
is a word boundary. -/
def searchTwoWord (fuel : ℕ) (w1 w2 : List Char) (prevIsWord : Bool) (text : List Char) : Bool :=
  match fuel with
  | 0 => false
  | fuel + 1 =>
    match text with
    | [] => false
    | c :: rest =>
      (!prevIsWord && matchTwoWordAt w1 w2 text) ||
        searchTwoWord fuel w1 w2 (isWordChar c) rest

/-- The pattern table of _heuristic_grammar_check: each entry is the two
literal words and the description recorded on a hit. -/
def grammarPatterns : List ((String × String) × String) :=
  [(("i", "is"), "Subject-verb disagreement: i is"),
   (("he", "have"), "Subject-verb disagreement: he have"),
   (("she", "have"), "Subject-verb disagreement: she have"),
   (("they", "was"), "Subject-verb disagreement: they was"),
   (("we", "was"), "Subject-verb disagreement: we was"),
   ((String.mk ['d', 'o', 'n', aposC, 't'], "got"), "Non-standard: do not got"),
   (("could", "of"), "Common error: should be could have"),
   (("would", "of"), "Common error: should be would have"),
   (("should", "of"), "Common error: should be should have")]

/-- _heuristic_grammar_check from ml_engine.py: one error per pattern found
in the lowercased transcript.  (The Python description strings quote the
offending phrase; the descriptions here drop the quote characters, which no
scoring value depends on.) -/
def heuristicGrammarCheck (transcript : String) : ℕ × List String :=
  let tl := (lowerS transcript).data
  grammarPatterns.foldl
    (fun (acc : ℕ × List String) p =>
      if searchTwoWord (tl.length + 1) p.1.1.data p.1.2.data false tl then
        (acc.1 + 1, acc.2 ++ [p.2])
      else acc)
    (0, [])

/-- estimate_grammar_errors from ml_engine.py.  The LanguageTool collaborator
is an oracle returning the filtered error count and up to five descriptions;
when it is absent (or raises, which the source catches) the regex heuristic
runs. -/
def estimateGrammarErrors (tool : Option (String → ℕ × List String))
    (transcript : String) : ℕ × List String :=
  if transcript = "" ∨ transcript.length < 10 then (0, [])
  else
    match tool with
    | some check => check transcript
    | none => heuristicGrammarCheck transcript

/-! ## Communication sub-analyzers -/

/-- Result of calculate_vocabulary_diversity (assessment strings elided from
scoring; the score and metric fields are the data consumed downstream). -/
structure VocabResult where
  ttr : ℚ
  uniqueWords : ℕ
  totalWords : ℕ
  score : ℚ

/-- calculate_vocabulary_diversity from ml_engine.py.  Thresholds from
config.py: TTR_EXCELLENT = 0.65, TTR_GOOD = 0.50, TTR_POOR = 0.30,
MIN_WORDS_FOR_ANALYSIS = 20.  round(·, k) elided. -/
def calculateVocabularyDiversity (transcript : String) : VocabResult :=
  if transcript = "" then ⟨0, 0, 0, 0⟩
  else
    let words := alphaTokens3 (lowerS transcript)
    let totalWords := words.length
    if totalWords < 20 then ⟨0, 0, 0, 0⟩
    else
      let uniqueWords := (dedupFirst words).length
      let ttr : ℚ := if 0 < totalWords then (uniqueWords : ℚ) / totalWords else 0
      let score : ℚ :=
        if ttr ≥ 65/100 then 85 + (ttr - 65/100) * 100
        else if ttr ≥ 50/100 then 70 + (ttr - 50/100) / (65/100 - 50/100) * 15
        else if ttr ≥ 30/100 then 40 + (ttr - 30/100) / (50/100 - 30/100) * 30
        else ttr / (30/100) * 40
      ⟨ttr, uniqueWords, totalWords, min 100 (max 0 score)⟩

/-- re.split on the class [.!?]+ followed by strip and dropping empties, as
applied by the source to cut transcripts into sentences: equivalently, the
maximal runs of non-terminator characters, stripped, empties dropped. -/
def splitSentences (transcript : String) : List String :=
  ((runsAux (fun c => !(c = '.' || c = '!' || c = '?')) transcript.data []).map
      (fun l => pyStrip (String.mk l))).filter (· ≠ "")

/-- Result of analyze_sentence_complexity.  np.std is kept as the population
variance lengthVar (its square), since the only downstream use is the test
3 ≤ std ≤ 8, expressed here as 9 ≤ var ≤ 64. -/
structure SentenceResult where
  sentenceCount : ℕ
  avgLength : ℚ
  lengthVar : ℚ
  score : ℚ

/-- Population mean of a list of naturals, as a rational. -/
def meanQ (l : List ℕ) : ℚ := (l.foldr (fun n acc => (n : ℚ) + acc) 0) / l.length

/-- Population variance of a list of naturals (square of np.std). -/
def varQ (l : List ℕ) : ℚ :=
  let m := meanQ l
  (l.foldr (fun n acc => ((n : ℚ) - m) ^ 2 + acc) 0) / l.length

/-- analyze_sentence_complexity from ml_engine.py.  Constants from config.py:
SENTENCE_LENGTH_MIN = 8, SENTENCE_LENGTH_MAX = 30, optimal band [12, 20]. -/
def analyzeSentenceComplexity (transcript : String) : SentenceResult :=
  if transcript = "" then ⟨0, 0, 0, 0⟩
  else
    let sentences := splitSentences transcript
    if sentences.length < 2 then ⟨sentences.length, 0, 0, 50⟩
    else
      let lengths := sentences.map (fun s => (pySplit s).length)
      let avgLength := meanQ lengths
      let lengthVar := varQ lengths
      let score1 : ℚ :=
        if avgLength < 8 then 100 - (8 - avgLength) * 5
        else if avgLength > 30 then 100 - (avgLength - 30) * 3
        else if 12 ≤ avgLength ∧ avgLength ≤ 20 then 100
        else 90
      let score2 := if 9 ≤ lengthVar ∧ lengthVar ≤ 64 then score1 + 5 else score1
      ⟨sentences.length, avgLength, lengthVar, min 100 (max 0 score2)⟩

/-- TRANSITION_WORDS from config.py. -/
def transitionWords : List String :=
  ["first", "second", "third", "finally", "next", "then", "lastly",
   "additionally", "moreover", "furthermore", "also", "besides", "in addition",
   "however", "although", "nevertheless", "on the other hand", "conversely", "but",
   "therefore", "consequently", "as a result", "because", "thus", "hence",
   "for example", "for instance", "specifically", "such as", "namely",
   "in conclusion", "to summarize", "overall", "in summary", "ultimately"]

/-- Number of occurrences of a string as a complete word run (re.findall of
word-boundary word word-boundary for a purely alphabetic word: exactly the
maximal word runs equal to it). -/
def wordOccCount (w : String) (text : String) : ℕ :=
  ((wordRuns text).filter (· = w)).length

/-- Non-overlapping substring occurrence count (Python str.count). -/
def countSub (fuel : ℕ) (pat : List Char) (text : List Char) : ℕ :=
  match fuel with
  | 0 => 0
  | fuel + 1 =>
    match text with
    | [] => 0
    | _ :: rest =>
      if startsWithL text pat then 1 + countSub fuel pat (text.drop pat.length)
      else countSub fuel pat rest

/-- analyze_coherence from ml_engine.py: the transitions found (one list
entry per transition type present) and the banded score.  Phrases containing
a space are matched by plain substring containment, single words by word
boundaries, exactly as the source. -/
def analyzeCoherence (transcript : String) : ℕ × ℚ :=
  if transcript = "" then (0, 0)
  else
    let tl := lowerS transcript
    let totalWords := (pySplit tl).length
    if totalWords < 20 then (0, 0)
    else
      let found := transitionWords.filter (fun tr =>
        if pyIn " " tr then pyIn tr tl else 0 < wordOccCount tr tl)
      let n := found.length
      let score : ℚ :=
        if 5 ≤ n then 90 + min 10 ((n - 5 : ℚ) * 2)
        else if 3 ≤ n then 75 + (n - 3 : ℚ) * (15/2)
        else if 1 ≤ n then 50 + (n - 1 : ℚ) * (25/2)
        else 40
      (n, min 100 (max 0 score))

/-- PROFESSIONAL_TERMS from config.py. -/
def professionalTerms : List String :=
  ["implemented", "developed", "managed", "coordinated", "analyzed",
   "designed", "optimized", "established", "facilitated", "achieved",
   "collaborated", "executed", "strategized", "delegated", "evaluated",
   "led", "created", "resolved", "improved", "streamlined",
   "initiated", "delivered", "mentored", "negotiated", "presented",
   "stakeholder", "deliverable", "milestone", "objective", "deadline",
   "benchmark", "metrics", "strategy", "framework", "methodology",
   "scalable", "efficient", "innovative", "proactive", "comprehensive"]

/-- detect_professional_vocabulary from ml_engine.py: per term, the regex
word-boundary stem [a-z]* word-boundary (stem = first six characters) on the
lowercased transcript matches exactly the maximal word runs that extend the
stem with lowercase letters only, i.e. (on lowercased ASCII input) the
purely alphabetic runs having the stem as a prefix.  Up to three matches are
kept per term, then deduplicated across terms; the result is the distinct
count and the banded score. -/
def detectProfessionalVocabulary (transcript : String) : ℕ × ℚ :=
  if transcript = "" then (0, 0)
  else
    let tl := lowerS transcript
    let words := alphaTokens3 tl
    if words.length < 20 then (0, 0)
    else
      let foundTerms := professionalTerms.foldl
        (fun acc term =>
          let stem := (term.data.take 6)
          let hits := (wordRuns tl).filter
            (fun r => startsWithL r.data stem && isAlphaStr r)
          acc ++ hits.take 3)
        []
      let n := (dedupFirst foundTerms).length
      let score : ℚ :=
        if 6 ≤ n then 90 + min 10 ((n - 6 : ℚ) * 2)
        else if 4 ≤ n then 75 + (n - 4 : ℚ) * (15/2)
        else if 2 ≤ n then 55 + (n - 2 : ℚ) * 10
        else if 1 ≤ n then 45
        else 35
      (n, min 100 (max 0 score))

/-- The factor block of calculate_enhanced_communication_score. -/
structure CommFactors where
  grammarScore : ℚ
  grammarErrors : ℕ
  grammarDetails : List String
  vocab : VocabResult
  sentence : SentenceResult
  coherenceCount : ℕ
  coherenceScore : ℚ
  profCount : ℕ
  profScore : ℚ

/-- Result of calculate_enhanced_communication_score; factors is none on the
too-short early return, matching the empty Python factor dict. -/
structure CommScore where
  finalScore : ℚ
  factors : Option CommFactors

/-- calculate_enhanced_communication_score from ml_engine.py.  The weights
are COMMUNICATION_WEIGHTS from config.py: grammar 0.30, vocabulary 0.25,
sentence complexity 0.15, coherence 0.15, professional vocabulary 0.15.
GRAMMAR_PENALTY_PER_ERROR = 3 (the config constant MAX_GRAMMAR_PENALTY = 40
is imported by the source but never applied). -/
def calculateEnhancedCommunicationScore (tool : Option (String → ℕ × List String))
    (transcript : String) : CommScore :=
  if transcript = "" ∨ (pyStrip transcript).length < 10 then ⟨0, none⟩
  else
    let g := estimateGrammarErrors tool transcript
    let grammarScore := min 100 (max 0 (100 - (g.1 : ℚ) * 3))
    let vocab := calculateVocabularyDiversity transcript
    let sentence := analyzeSentenceComplexity transcript
    let coh := analyzeCoherence transcript
    let prof := detectProfessionalVocabulary transcript
    let finalScore :=
      grammarScore * (30/100) + vocab.score * (25/100) + sentence.score * (15/100)
        + coh.2 * (15/100) + prof.2 * (15/100)
    ⟨finalScore, some ⟨grammarScore, g.1, g.2, vocab, sentence, coh.1, coh.2, prof.1, prof.2⟩⟩

/-! ## Semantic similarity -/

/-- np.dot over real vectors (the embeddings of the sentence transformer). -/
def dotR (v w : List ℝ) : ℝ := (List.zipWith (· * ·) v w).sum

/-- _cosine_similarity from ml_engine.py as an input-output relation over
real vectors (relational because Real.sqrt carries no executable code; the
scoring pipeline consumes only its clamped value through the model oracle):
with norms np.linalg.norm v = sqrt (dotR v v), the output is 0 when either
norm is 0 and otherwise the cosine remapped from [-1,1] to [0,1]. -/
def cosineSimilarityIs (v w : List ℝ) (y : ℝ) : Prop :=
  (Real.sqrt (dotR v v) = 0 ∨ Real.sqrt (dotR w w) = 0 → y = 0) ∧
  (¬(Real.sqrt (dotR v v) = 0 ∨ Real.sqrt (dotR w w) = 0) →
    y = (dotR v w / (Real.sqrt (dotR v v) * Real.sqrt (dotR w w)) + 1) / 2)

/-- Jaccard similarity of two deduplicated token lists: intersection size
over union size, 0 for an empty union (the sets of _fallback_similarity,
with the union realised as the first list plus the unseen part of the
second). -/
def jaccardLists (words1 words2 : List String) : ℚ :=
  let inter := (words1.filter (fun w => words2.contains w)).length
  let union := (words1 ++ words2.filter (fun w => !words1.contains w)).length
  if union = 0 then 0 else (inter : ℚ) / union

/-- _fallback_similarity from ml_engine.py: Jaccard similarity of the
lowercased whitespace-token sets. -/
def fallbackSimilarity (text1 text2 : String) : ℚ :=
  jaccardLists (dedupFirst (pySplit (lowerS text1))) (dedupFirst (pySplit (lowerS text2)))

/-- semantic_similarity from ml_engine.py.  The sentence-transformer is an
oracle: when present, sim text1 text2 stands for the value
_cosine_similarity(encode text1, encode text2) and the source clamps it to
[0,1]; when the model is absent (or encoding raises, which the source
catches) the Jaccard fallback runs. -/
def semanticSimilarity (model : Option (String → String → ℚ))
    (text1 text2 : String) : ℚ :=
  if text1 = "" ∨ text2 = "" then 0
  else
    match model with
    | none => fallbackSimilarity text1 text2
    | some sim => max 0 (min 1 (sim text1 text2))

/-! ## Content scoring -/

/-- The stop-word list of extract_keywords in ml_engine.py. -/
def stopWords : List String :=
  ["the", "a", "an", "and", "or", "but", "in", "on", "at", "to",
   "for", "of", "with", "by", "from", "as", "is", "was", "are",
   "were", "been", "be", "have", "has", "had", "do", "does", "did",
   "will", "would", "could", "should", "may", "might", "must",
   "that", "which", "who", "whom", "this", "these", "those",
   "i", "you", "he", "she", "it", "we", "they", "what", "when",
   "where", "why", "how", "all", "each", "every", "both", "few",
   "more", "most", "other", "some", "such", "no", "not", "only",
   "own", "same", "so", "than", "too", "very", "can", "just"]

/-- Stable descending insertion by count (Python sorted with reverse=True is
stable, so an element moves left past exactly the entries of strictly
smaller count). -/
def insDescByCount (x : String × ℕ) : List (String × ℕ) → List (String × ℕ)
  | [] => [x]
  | y :: ys => if x.2 < y.2 then y :: insDescByCount x ys else x :: y :: ys

/-- Stable sort of the count table, descending by count. -/
def sortDescByCount (l : List (String × ℕ)) : List (String × ℕ) :=
  l.foldr insDescByCount []

/-- extract_keywords from ml_engine.py: frequency-ranked non-stop-word
alphabetic tokens of length at least three, top n. -/
def extractKeywords (text : String) (topN : ℕ) : List String :=
  let ws := (alphaTokens3 (lowerS text)).filter (fun w => !stopWords.contains w)
  ((sortDescByCount (wordCounts ws)).take topN).map (·.1)

/-- The stem test of match_keywords: the four-character stem of one side
occurs as a substring of the other. -/
def stemMatch (kw w : String) : Bool :=
  (4 ≤ kw.length && containsSubL (kw.data.take 4) w.data) ||
    (4 ≤ w.length && containsSubL (w.data.take 4) kw.data)

/-- One step of the keyword loop of match_keywords: append the keyword to
the found or the missing side, by exact token membership or stem match
against the transcript token set. -/
def matchStep (tw : List String) (acc : List String × List String) (kw : String) :
    List String × List String :=
  let kl := lowerS kw
  if tw.contains kl || tw.any (fun w => stemMatch kl w) then
    (acc.1 ++ [kw], acc.2)
  else (acc.1, acc.2 ++ [kw])

/-- match_keywords from ml_engine.py: split the keyword list into the found
and the missing ones, by exact token membership or stem match against the
set of alphabetic transcript tokens. -/
def matchKeywords (transcript : String) (keywords : List String) :
    List String × List String :=
  if transcript = "" ∨ keywords = [] then ([], keywords)
  else
    let tw := dedupFirst (alphaTokens3 (lowerS transcript))
    keywords.foldl (matchStep tw) ([], [])

/-- Result of analyze_content_keywords. -/
structure KeywordAnalysis where
  keywordsExtracted : List String
  keywordsFound : List String
  keywordsMissing : List String
  keywordCoverage : ℚ
  score : ℚ

/-- analyze_content_keywords from ml_engine.py: extract up to 15 keywords
from the ideal answer, match them, and band the coverage into a score. -/
def analyzeContentKeywords (transcript idealAnswer : String) : KeywordAnalysis :=
  if transcript = "" ∨ idealAnswer = "" then ⟨[], [], [], 0, 0⟩
  else
    let ik := extractKeywords idealAnswer 15
    if ik = [] then ⟨[], [], [], 0, 0⟩
    else
      let m := matchKeywords transcript ik
      let coverage : ℚ := (m.1.length : ℚ) / ik.length
      let score : ℚ :=
        if coverage ≥ 8/10 then 85 + (coverage - 8/10) * 75
        else if coverage ≥ 6/10 then 70 + (coverage - 6/10) * 75
        else if coverage ≥ 4/10 then 50 + (coverage - 4/10) * 100
        else if coverage ≥ 2/10 then 30 + (coverage - 2/10) * 100
        else coverage * 150
      ⟨ik, m.1, m.2, coverage, min 100 (max 0 score)⟩

/-- Result of calculate_enhanced_content_score. -/
structure ContentResult where
  finalScore : ℚ
  keywordAnalysis : KeywordAnalysis
  semanticSim : ℚ
  keywordWeight : ℚ
  semanticWeight : ℚ

/-- calculate_enhanced_content_score from ml_engine.py: blend of the banded
keyword-coverage score and min(100, similarity * 110), with length-adaptive
weights (under 30 words 0.6/0.4, over 100 words 0.4/0.6, else 0.5/0.5). -/
def calculateEnhancedContentScore (model : Option (String → String → ℚ))
    (transcript idealAnswer : String) : ContentResult :=
  if transcript = "" ∨ (pyStrip transcript).length < 10 then
    ⟨0, ⟨[], [], [], 0, 0⟩, 0, 1/2, 1/2⟩
  else
    let ka := analyzeContentKeywords transcript idealAnswer
    let sem := semanticSimilarity model transcript idealAnswer
    let semScore := min 100 (sem * 110)
    let wordCount := (pySplit transcript).length
    let w : ℚ × ℚ :=
      if wordCount < 30 then (6/10, 4/10)
      else if wordCount > 100 then (4/10, 6/10)
      else (1/2, 1/2)
    let finalScore := min 100 (max 0 (ka.score * w.1 + semScore * w.2))
    ⟨finalScore, ka, sem, w.1, w.2⟩

/-! ## Structure scoring (STAR) -/

/-- STAR_SITUATION_KEYWORDS from config.py. -/
def starSituationKeywords : List String :=
  ["situation", "context", "background", "when", "there was", "faced with",
   "challenge was", "problem was", "at the time", "in my role"]

/-- STAR_TASK_KEYWORDS from config.py. -/
def starTaskKeywords : List String :=
  ["task", "responsible for", "my role", "needed to", "had to",
   "goal was", "objective was", "assigned to", "in charge of"]

/-- STAR_ACTION_KEYWORDS from config.py. -/
def starActionKeywords : List String :=
  ["action", "i did", "i took", "implemented", "developed", "created",
   "initiated", "led", "organized", "coordinated", "decided to"]

/-- STAR_RESULT_KEYWORDS from config.py. -/
def starResultKeywords : List String :=
  ["result", "outcome", "achieved", "increased", "decreased", "improved",
   "saved", "reduced", "generated", "led to", "resulted in", "percent"]

/-- The conclusion indicator phrases of analyze_star_structure. -/
def conclusionIndicators : List String :=
  ["in conclusion", "ultimately", "as a result", "this led to",
   "the outcome was", "i learned", "this taught me", "because of this",
   "this experience", "going forward", "the key takeaway"]

/-- Result of analyze_star_structure / calculate_structure_score. -/
structure StarResult where
  starComponents : List String
  starScore : ℚ
  organizationScore : ℚ
  conclusionScore : ℚ
  finalScore : ℚ

/-- analyze_star_structure from ml_engine.py.  Components are detected by
plain substring containment of any keyword of the family in the lowercased
transcript; weights from config.py STRUCTURE_WEIGHTS: star 0.50,
organization 0.30, conclusion 0.20. -/
def analyzeStarStructure (transcript : String) : StarResult :=
  if transcript = "" ∨ transcript.length < 20 then ⟨[], 0, 0, 0, 0⟩
  else
    let tl := lowerS transcript
    let hasS := starSituationKeywords.any (fun k => pyIn k tl)
    let hasT := starTaskKeywords.any (fun k => pyIn k tl)
    let hasA := starActionKeywords.any (fun k => pyIn k tl)
    let hasR := starResultKeywords.any (fun k => pyIn k tl)
    let comps := (if hasS then ["situation"] else []) ++ (if hasT then ["task"] else [])
      ++ (if hasA then ["action"] else []) ++ (if hasR then ["result"] else [])
    let count := comps.length
    let starScore : ℚ :=
      if count = 4 then 100 else if count = 3 then 80
      else if count = 2 then 60 else if count = 1 then 40 else 25
    let sentences := splitSentences transcript
    let organizationScore : ℚ :=
      if 3 ≤ sentences.length then min 100 (60 + (sentences.length : ℚ) * 5)
      else if 2 ≤ sentences.length then 50 else 30
    let inBody := conclusionIndicators.any (fun k => pyIn k tl)
    let inLast :=
      match sentences.getLast? with
      | none => false
      | some s =>
        ["result", "learn", "outcome", "achiev", "succe"].any
          (fun k => pyIn k (lowerS s))
    let conclusionScore : ℚ := if inBody || inLast then 90 else 60
    let finalScore :=
      (50/100) * starScore + (30/100) * organizationScore + (20/100) * conclusionScore
    ⟨comps, starScore, organizationScore, conclusionScore, finalScore⟩

/-- calculate_structure_score from ml_engine.py delegates to
analyze_star_structure. -/
def calculateStructureScore (transcript : String) : StarResult :=
  analyzeStarStructure transcript

/-! ## Confidence scoring -/

/-- calculate_confidence_score from ml_engine.py, weights from config.py
CONFIDENCE_WEIGHTS: voice 0.40, eye contact 0.30, body stability 0.20,
emotion positivity 0.10; the result is bounded into [0,100] (round
elided). -/
def calculateConfidenceScore (voiceConfidence eyeContact bodyStability
    emotionPositivity : ℚ) : ℚ :=
  let final := (40/100) * voiceConfidence + (30/100) * eyeContact
    + (20/100) * bodyStability + (10/100) * emotionPositivity
  min 100 (max 0 final)

/-! ## Quality gates: nonsense detection -/

/-- The word alternatives of the first NONSENSE_PATTERNS regex in config.py:
word-boundary (asdf|qwerty|lorem|ipsum|blah|test|testing|hello|hi|hey)
word-boundary. -/
def nonsenseTestWords : List String :=
  ["asdf", "qwerty", "lorem", "ipsum", "blah", "test", "testing", "hello", "hi", "hey"]

/-- re.findall of the first nonsense pattern: with boundaries on both sides
and purely alphabetic alternatives, the matches (captured group = matched
word) are exactly the maximal word runs equal to one of the alternatives. -/
def nonsensePattern1 (tl : String) : List String :=
  (wordRuns tl).filter (fun w => nonsenseTestWords.contains w)

/-- Maximal equal-character runs of a string. -/
def charRunsAux : List Char → Option (Char × ℕ) → List (Char × ℕ)
  | [], none => []
  | [], some r => [r]
  | c :: cs, none => charRunsAux cs (some (c, 1))
  | c :: cs, some (r, n) =>
    if c = r then charRunsAux cs (some (r, n + 1))
    else (r, n) :: charRunsAux cs (some (c, 1))

/-- re.findall of the second nonsense pattern, a character repeated five or
more times, captured group the character: the greedy repetition consumes a
maximal run whole, so the matches are exactly the maximal equal-character
runs of length at least 5, one match (the character) per run. -/
def nonsensePattern2 (tl : String) : List String :=
  ((charRunsAux tl.data none).filter (fun p => 5 ≤ p.2)).map (fun p => String.mk [p.1])

/-- One greedy pass of the repeated unit of the third nonsense pattern,
one-or-two word characters followed by one whitespace character.  Since a
word character is never whitespace, the regex unit matches deterministically
(two word characters then whitespace, else one word character then
whitespace, else failure), and nothing follows the repetition, so no
backtracking arises.  Returns the repetition count, the last unit matched
(the captured group) and the rest of the input. -/
def p3munch (fuel : ℕ) (cs : List Char) (n : ℕ) (lastUnit : List Char) :
    ℕ × List Char × List Char :=
  match fuel with
  | 0 => (n, lastUnit, cs)
  | fuel + 1 =>
    match cs with
    | c1 :: c2 :: c3 :: rest =>
      if isWordChar c1 && isWordChar c2 && isPyWs c3 then
        p3munch fuel rest (n + 1) [c1, c2, c3]
      else if isWordChar c1 && isPyWs c2 then
        p3munch fuel (c3 :: rest) (n + 1) [c1, c2]
      else (n, lastUnit, cs)
    | [c1, c2] =>
      if isWordChar c1 && isPyWs c2 then (n + 1, [c1, c2], [])
      else (n, lastUnit, cs)
    | _ => (n, lastUnit, cs)

/-- re.findall of the third nonsense pattern, word-boundary followed by five
or more repetitions of the unit of p3munch: scan the word boundaries
(positions where a word character follows a non-word character or the
start), munch greedily, record the captured group on five or more units and
continue after the match; otherwise advance one character. -/
def p3scan (fuel : ℕ) (prevIsWord : Bool) (cs : List Char) : List String :=
  match fuel with
  | 0 => []
  | fuel + 1 =>
    match cs with
    | [] => []
    | c :: rest =>
      if !prevIsWord && isWordChar c then
        let m := p3munch (cs.length + 1) cs 0 []
        if 5 ≤ m.1 then String.mk m.2.1 :: p3scan fuel false m.2.2
        else p3scan fuel (isWordChar c) rest
      else p3scan fuel (isWordChar c) rest

/-- Matches of the third nonsense pattern on a string. -/
def nonsensePattern3 (tl : String) : List String :=
  p3scan (tl.data.length + 1) false tl.data

/-- The common-word whitelist of detect_nonsense in ml_engine.py. -/
def commonWords : List String :=
  ["i", "the", "a", "an", "and", "or", "but", "is", "are", "was", "were",
   "have", "has", "had", "do", "does", "did", "will", "would", "could",
   "should", "can", "may", "my", "your", "our", "their", "this", "that",
   "it", "he", "she", "we", "they", "you", "me", "him", "her", "us", "them",
   "what", "when", "where", "why", "how", "which", "who", "whom",
   "to", "for", "with", "by", "from", "at", "in", "on", "of", "as",
   "so", "if", "then", "than", "because", "while", "although", "though",
   "not", "no", "yes", "just", "only", "also", "very", "too", "much",
   "more", "most", "some", "any", "all", "each", "every", "both", "few",
   "many", "other", "another", "such", "like", "even", "still", "already",
   "been", "being", "done", "doing", "go", "going", "get", "getting",
   "make", "making", "take", "taking", "know", "think", "see", "want",
   "need", "use", "find", "give", "tell", "work", "call", "try", "ask",
   "come", "put", "mean", "keep", "let", "begin", "seem", "help", "show",
   "hear", "play", "run", "move", "live", "believe", "hold", "bring",
   "about", "into", "over", "after", "before", "between", "under", "again",
   "there", "here", "now", "always", "never", "often", "sometimes"]

/-- A token counts as recognized when it is a common word or longer than
three characters (the recognized_words comprehension of detect_nonsense). -/
def isRecognized (w : String) : Bool := commonWords.contains w || 3 < w.length

/-- The word-recognition fraction of detect_nonsense: recognized tokens over
all tokens of the lowercased whitespace split, 0 when there are none. -/
def recognitionFrac (transcript : String) : ℚ :=
  let words := pySplit (lowerS transcript)
  if words = [] then 0
  else ((words.filter isRecognized).length : ℚ) / words.length

/-- The entry appended by the repetition branch of detect_nonsense
(f-string word repeated n times). -/
def repeatEntry (n : ℕ) : String := "word repeated " ++ toString n ++ " times"

/-- Result of detect_nonsense. -/
structure NonsenseResult where
  isNonsense : Bool
  confidence : ℚ
  patternsFound : List String
  reason : String

/-- detect_nonsense from ml_engine.py: the three regex pattern families
(three matches kept per family), the single-word repetition check (a word
making up over 30 percent of more-than-five words), the word-recognition
check (fraction under 0.3 with more than ten words), then the confidence
0.3 per finding capped at 1, nonsense at confidence at least 0.5. -/
def detectNonsense (transcript : String) : NonsenseResult :=
  if transcript = "" ∨ (pyStrip transcript).length < 5 then
    ⟨true, 1, [], "Input too short"⟩
  else
    let tl := lowerS transcript
    let p := (nonsensePattern1 tl).take 3 ++ (nonsensePattern2 tl).take 3
      ++ (nonsensePattern3 tl).take 3
    let words := pySplit tl
    let p :=
      if 5 < words.length then
        let maxC := maxCount (wordCounts words)
        if (maxC : ℚ) / words.length > 3/10 then p ++ [repeatEntry maxC] else p
      else p
    let p :=
      if recognitionFrac transcript < 3/10 ∧ 10 < words.length then
        p ++ ["low word recognition ratio"]
      else p
    if p = [] then ⟨false, 0, [], ""⟩
    else
      let conf := min 1 ((p.length : ℚ) * (3/10))
      ⟨decide (1/2 ≤ conf), conf, p,
        "Detected patterns: " ++ String.intercalate ", " (p.take 3)⟩

/-! ## Quality gates: coherence and the gate pipeline -/

/-- The logical-connector list of calculate_answer_coherence. -/
def coherenceConnectors : List String :=
  ["because", "therefore", "however", "although", "while", "since",
   "so", "but", "and", "then", "first", "second", "finally"]

/-- calculate_answer_coherence from ml_engine.py: baseline 50 adjusted by
sentence structure, word diversity, connector presence (plain substring
containment) and length appropriateness, clamped to [0,100]. -/
def calculateAnswerCoherence (transcript : String) : ℚ :=
  if transcript = "" ∨ (pyStrip transcript).length < 10 then 0
  else
    let words := pySplit transcript
    let wordCount := words.length
    let sentences := splitSentences transcript
    let s1 : ℚ :=
      if 2 ≤ sentences.length then 50 + 15
      else if sentences.length = 1 ∧ 15 ≤ wordCount then 50 + 5
      else 50 - 10
    let uniqueWords := (dedupFirst ((words.filter (fun w => 2 < w.length)).map lowerS)).length
    let diversityFrac : ℚ := if 0 < wordCount then (uniqueWords : ℚ) / wordCount else 0
    let s2 : ℚ :=
      if diversityFrac ≥ 6/10 then s1 + 15
      else if diversityFrac ≥ 4/10 then s1 + 5
      else if diversityFrac < 1/4 then s1 - 15
      else s1
    let tl := lowerS transcript
    let connectorCount := (coherenceConnectors.filter (fun c => pyIn c tl)).length
    let s3 : ℚ :=
      if 3 ≤ connectorCount then s2 + 10
      else if 1 ≤ connectorCount then s2 + 5
      else s2
    let s4 : ℚ :=
      if 30 ≤ wordCount ∧ wordCount ≤ 200 then s3 + 10
      else if wordCount < 15 then s3 - 15
      else if 300 < wordCount then s3 - 5
      else s3
    max 0 (min 100 s4)

/-- The score fields read by apply_quality_gates from the partially built
result dictionary of score_answer (with their dict-get defaults). -/
structure GateScores where
  fillerCount : ℕ
  relevance : ℚ
  structureScore : ℚ

/-- Result of apply_quality_gates. -/
structure GateResult where
  issues : List String
  penalties : List (String × ℚ)
  totalPenalty : ℚ
  scoreCap : Option ℚ

/-- Python score_cap or 100 in gate 4 (None and 0 are falsy). -/
def capOr100 : Option ℚ → ℚ
  | none => 100
  | some c => if c = 0 then 100 else c

/-- Gate 8 condition on the running cap: score_cap is None or above the
no-structure cap 55. -/
def capIsNoneOrAbove55 : Option ℚ → Bool
  | none => true
  | some c => decide (55 < c)

/-- Gate 1 of apply_quality_gates: word count under 15 adds the short-answer
issue and penalty 50 and caps at 40 (under 10 words) or 60. -/
def gateShort (wordCount : ℕ) (r : GateResult) : GateResult :=
  if wordCount < 15 then
    { issues := r.issues ++ ["Answer too short - provide more detail"],
      penalties := r.penalties ++ [("short_answer", 50)],
      totalPenalty := r.totalPenalty + 50,
      scoreCap := if wordCount < 10 then some 40 else some 60 }
  else r

/-- Gate 2: under 10 distinct lowercased words of length over 2 adds the
low-vocabulary issue and penalty 30. -/
def gateUnique (uniqueWords : ℕ) (r : GateResult) : GateResult :=
  if uniqueWords < 10 then
    { r with
      issues := r.issues ++ ["Limited vocabulary - use more varied words"],
      penalties := r.penalties ++ [("low_vocabulary", 30)],
      totalPenalty := r.totalPenalty + 30 }
  else r

/-- Gate 3: filler fraction above 0.15 adds the filler issue and penalty 25. -/
def gateFiller (fillerFrac : ℚ) (r : GateResult) : GateResult :=
  if fillerFrac > 15/100 then
    { r with
      issues := r.issues ++ ["Too many filler words - practice speaking clearly"],
      penalties := r.penalties ++ [("excessive_fillers", 25)],
      totalPenalty := r.totalPenalty + 25 }
  else r

/-- Gate 4: relevance below 0.25 with a nonempty ideal answer adds the
off-topic issue and penalty 40 and tightens the cap to
min(cap or 100, 35). -/
def gateRelevance (relevance : ℚ) (idealAnswer : String) (r : GateResult) : GateResult :=
  if relevance < 25/100 ∧ idealAnswer ≠ "" then
    { r with
      issues := r.issues ++ ["Answer does not address the question"],
      penalties := r.penalties ++ [("off_topic", 40)],
      totalPenalty := r.totalPenalty + 40,
      scoreCap := some (min (capOr100 r.scoreCap) 35) }
  else r

/-- Gate 5: with over 10 words, a lowercased over-3-letter word whose count
exceeds 30 percent of the distinct-word table adds the repetition issue and
penalty 20. -/
def gateRepetition (words : List String) (wordCount : ℕ) (r : GateResult) : GateResult :=
  if 10 < wordCount then
    let longCounts := wordCounts ((words.filter (fun w => 3 < w.length)).map lowerS)
    if longCounts ≠ [] ∧ (maxCount longCounts : ℚ) / longCounts.length > 3/10 then
      { r with
        issues := r.issues ++ ["Avoid repeating the same phrases"],
        penalties := r.penalties ++ [("repetitive", 20)],
        totalPenalty := r.totalPenalty + 20 }
    else r
  else r

/-- Gate 6: a nonsense verdict adds the nonsense issue and penalty 50 and
overwrites the cap with 15. -/
def gateNonsense (nonsense : NonsenseResult) (r : GateResult) : GateResult :=
  if nonsense.isNonsense then
    { r with
      issues := r.issues ++ ["Answer appears to be nonsense: " ++ nonsense.reason],
      penalties := r.penalties ++ [("nonsense", 50)],
      totalPenalty := r.totalPenalty + 50,
      scoreCap := some 15 }
  else r

/-- Gate 7: coherence under MIN_COHERENCE_SCORE = 30 adds the incoherence
issue and penalty 30. -/
def gateCoherence (coherence : ℚ) (r : GateResult) : GateResult :=
  if coherence < 30 then
    { r with
      issues := r.issues ++ ["Answer lacks coherent structure"],
      penalties := r.penalties ++ [("incoherent", 30)],
      totalPenalty := r.totalPenalty + 30 }
  else r

/-- Gate 8: a structure score under 30 caps at 55 when no tighter cap is
set. -/
def gateStructure (structureScore : ℚ) (r : GateResult) : GateResult :=
  if structureScore < 30 ∧ capIsNoneOrAbove55 r.scoreCap then
    { r with scoreCap := some 55 }
  else r

/-- apply_quality_gates from ml_engine.py; constants from config.py
QUALITY_GATES (thresholds 15 words / 10 unique words / filler ratio 0.15 /
relevance 0.25 / repetition 0.3, penalties 50/30/25/40/20), SCORE_CAPS
(very short 40, short 60, no structure 55, off-topic 35, nonsense 15) and
MIN_COHERENCE_SCORE = 30.  The gates run in source order and later
cap-setting gates can overwrite earlier caps. -/
def applyQualityGates (transcript : String) (scores : GateScores)
    (idealAnswer : String) : GateResult :=
  if transcript = "" then ⟨["No answer provided"], [], 0, some 0⟩
  else
    let words := pySplit transcript
    let wordCount := words.length
    let uniqueWords := (dedupFirst ((words.filter (fun w => 2 < w.length)).map lowerS)).length
    let fillerFrac : ℚ := if 0 < wordCount then (scores.fillerCount : ℚ) / wordCount else 0
    gateStructure scores.structureScore
      (gateCoherence (calculateAnswerCoherence transcript)
        (gateNonsense (detectNonsense transcript)
          (gateRepetition words wordCount
            (gateRelevance scores.relevance idealAnswer
              (gateFiller fillerFrac
                (gateUnique uniqueWords
                  (gateShort wordCount ⟨[], [], 0, none⟩)))))))

/-! ## Top-level scoring -/

/-- The values score_answer reads from the voice-analysis collaborator
(voice_analysis_service.analyze_voice): the overall voice score, the
voice-confidence sub-value (dict default 70) and the feedback list. -/
structure VoiceRes where
  overall : ℚ
  voiceConfidence : ℚ
  feedback : List String

/-- The optional video-derived signals of score_answer (each read with dict
default 70 by the source; a caller omitting a key is modelled by passing
70). -/
structure VideoSignals where
  eyeContact : ℚ
  bodyStability : ℚ
  emotionPositivity : ℚ

/-- The external collaborators of the pipeline.  simModel present means the
sentence-transformer loaded and encoding succeeds, the value being the raw
cosine similarity of the two embeddings; grammarTool likewise stands for
LanguageTool; voiceSvc returns none when analyze_voice raises (the source
catches and falls back to the neutral defaults). -/
structure Collab where
  simModel : Option (String → String → ℚ)
  grammarTool : Option (String → ℕ × List String)
  voiceSvc : String → Option VoiceRes

/-- The collaborator-free configuration: no encoder, no LanguageTool, voice
analysis failing. -/
def collabNone : Collab := ⟨none, none, fun _ => none⟩

/-- The fields of the score_answer result dictionary that the claims are
about.  The Python early return omits the quality fields entirely; here they
carry the neutral values ([], 0, none). -/
structure ScoreResult where
  content : ℚ
  delivery : ℚ
  communication : ℚ
  voice : ℚ
  confidence : ℚ
  structureScore : ℚ
  final : ℚ
  rawFinal : ℚ
  wpm : ℚ
  fillerCount : ℕ
  grammarErrors : ℕ
  relevance : ℚ
  qualityIssues : List String
  qualityPenaltyTotal : ℚ
  qualityScoreCap : Option ℚ

/-- The voice section of score_answer: the clamped overall voice score and
the voice-confidence value handed to the confidence composer, with the
neutral (70, 70) defaults when no audio is given or analyze_voice raises. -/
def voiceSection (c : Collab) (audioPath : Option String) : ℚ × ℚ :=
  match audioPath with
  | some p =>
    match c.voiceSvc p with
    | some vr => (clampScore vr.overall, vr.voiceConfidence)
    | none => (70, 70)
  | none => (70, 70)

/-- The final-score assembly of score_answer (source lines 1421-1437): the
weighted raw sum minus the quality penalty, capped when a cap applies,
clamped. -/
def finalFromRaw (raw penalty : ℚ) (cap : Option ℚ) : ℚ :=
  let f := raw - penalty
  clampScore (match cap with | some c => min f c | none => f)

/-- score_answer from ml_engine.py: the full six-score pipeline.  Weights
from config.py SCORE_WEIGHTS: content 0.30, delivery 0.15, communication
0.15, voice 0.15, confidence 0.15, structure 0.10; filler penalty
FILLER_PENALTY_PER_WORD = 2 capped at MAX_FILLER_PENALTY = 30. -/
def scoreAnswer (c : Collab) (transcript : String) (durationSeconds : ℚ)
    (idealAnswer : String) (audioPath : Option String)
    (videoAnalysis : Option VideoSignals) : ScoreResult :=
  if transcript = "" ∨ (pyStrip transcript).length < 5 then
    ⟨0, 0, 0, 70, 70, 0, 0, 0, 0, 0, 0, 0, [], 0, none⟩
  else
    let contentAnalysis := calculateEnhancedContentScore c.simModel transcript idealAnswer
    let content := clampScore contentAnalysis.finalScore
    let relevance := contentAnalysis.semanticSim
    let wpm := computeWpm transcript durationSeconds
    let wpmPenalty := (getWpmAssessment wpm).2
    let fillers := countFillers transcript
    let fillerPenalty : ℚ := min 30 ((fillers.1 : ℚ) * 2)
    let delivery := clampScore (100 - (wpmPenalty : ℚ) - fillerPenalty)
    let commAnalysis := calculateEnhancedCommunicationScore c.grammarTool transcript
    let communication := clampScore commAnalysis.finalScore
    let grammarErrors := (commAnalysis.factors.map (·.grammarErrors)).getD 0
    let voicePair := voiceSection c audioPath
    let voice := voicePair.1
    let structureAnalysis := calculateStructureScore transcript
    let structureScore := clampScore structureAnalysis.finalScore
    let video := videoAnalysis.getD ⟨70, 70, 70⟩
    let confidence := clampScore (calculateConfidenceScore voicePair.2
      video.eyeContact video.bodyStability video.emotionPositivity)
    let quality := applyQualityGates transcript
      ⟨fillers.1, relevance, structureScore⟩ idealAnswer
    let rawFinalScore :=
      content * (30/100) + delivery * (15/100) + communication * (15/100)
        + voice * (15/100) + confidence * (15/100) + structureScore * (10/100)
    let final := finalFromRaw rawFinalScore quality.totalPenalty quality.scoreCap
    ⟨content, delivery, communication, voice, confidence, structureScore,
      final, clampScore rawFinalScore, wpm, fillers.1, grammarErrors, relevance,
      quality.issues, quality.totalPenalty, quality.scoreCap⟩

/-- The fields of the score_answer_by_keywords result dictionary that the
claims are about. -/
structure KeywordScoreResult where
  content : ℚ
  delivery : ℚ
  communication : ℚ
  final : ℚ
  wpm : ℚ
  fillerCount : ℕ
  grammarErrors : ℕ
  relevance : ℚ
  keywordsFound : List String
  keywordsMissing : List String
  keywordMatchPct : ℚ

/-- score_answer_by_keywords from ml_engine.py: the keyword-only scoring
path.  Content is the keyword-match percentage (semantic fallback when no
keywords, neutral 50 when neither keywords nor ideal answer); filler penalty
here is 3 per filler capped at 20; the final score is the weighted sum with
SCORE_WEIGHTS content 0.30, delivery 0.15 and communication 0.15 applied
directly (no voice, confidence, structure or quality-gate stage). -/
def scoreAnswerByKeywords (model : Option (String → String → ℚ))
    (tool : Option (String → ℕ × List String))
    (transcript : String) (keywords : List String) (durationSeconds : ℚ)
    (idealAnswer : String) : KeywordScoreResult :=
  if transcript = "" ∨ (pyStrip transcript).length < 5 then
    ⟨0, 0, 0, 0, 0, 0, 0, 0, [], [], 0⟩
  else
    let ckr : ℚ × ℚ × List String × List String × ℚ :=
      if keywords ≠ [] then
        let m := matchKeywords transcript keywords
        let matchPct : ℚ := ((m.1.length : ℚ) / keywords.length) * 100
        (min 100 (max 0 matchPct), (m.1.length : ℚ) / keywords.length, m.1, m.2, matchPct)
      else if idealAnswer ≠ "" then
        let rel := semanticSimilarity model transcript idealAnswer
        (rel * 100, rel, [], [], 0)
      else (50, 0, [], [], 0)
    let content := ckr.1
    let relevance := ckr.2.1
    let wpm := computeWpm transcript durationSeconds
    let wpmPenalty := (getWpmAssessment wpm).2
    let fillers := countFillers transcript
    let fillerPenalty : ℚ := min 20 ((fillers.1 : ℚ) * 3)
    let delivery := max 0 (min 100 (100 - (wpmPenalty : ℚ) - fillerPenalty))
    let commAnalysis := calculateEnhancedCommunicationScore tool transcript
    let communication := max 0 (min 100 commAnalysis.finalScore)
    let grammarErrors := (commAnalysis.factors.map (·.grammarErrors)).getD 0
    let finalScore :=
      content * (30/100) + delivery * (15/100) + communication * (15/100)
    ⟨content, delivery, communication, max 0 (min 100 finalScore), wpm,
      fillers.1, grammarErrors, relevance, ckr.2.2.1, ckr.2.2.2.1, ckr.2.2.2.2⟩

end MLEngine

namespace MLEngine

/-! ## Helper lemmas -/

theorem clampScore_nonneg (q : ℚ) : 0 ≤ clampScore q := le_max_left 0 _

theorem clampScore_le_100 (q : ℚ) : clampScore q ≤ 100 :=
  max_le (by norm_num) (min_le_left 100 q)

theorem jaccardLists_mem (w1 w2 : List String) :
    0 ≤ jaccardLists w1 w2 ∧ jaccardLists w1 w2 ≤ 1 := by
  simp only [jaccardLists]
  split_ifs with h
  · norm_num
  · have h1 : (w1.filter (fun w => w2.contains w)).length ≤ w1.length :=
      List.length_filter_le _ _
    have h2 : w1.length ≤ (w1 ++ w2.filter (fun w => !w1.contains w)).length := by
      rw [List.length_append]; omega
    have hpos : (0:ℚ) < ((w1 ++ w2.filter (fun w => !w1.contains w)).length : ℚ) := by
      exact_mod_cast Nat.pos_of_ne_zero h
    constructor
    · exact div_nonneg (by positivity) (le_of_lt hpos)
    · rw [div_le_one hpos]
      exact_mod_cast le_trans h1 h2

theorem fallbackSimilarity_mem (t1 t2 : String) :
    0 ≤ fallbackSimilarity t1 t2 ∧ fallbackSimilarity t1 t2 ≤ 1 :=
  jaccardLists_mem _ _

theorem semanticSimilarity_mem (m : Option (String → String → ℚ)) (t1 t2 : String) :
    0 ≤ semanticSimilarity m t1 t2 ∧ semanticSimilarity m t1 t2 ≤ 1 := by
  simp only [semanticSimilarity]
  split_ifs with h
  · norm_num
  · cases m with
    | none => exact fallbackSimilarity_mem t1 t2
    | some sim =>
      exact ⟨le_max_left 0 _, max_le (by norm_num) (min_le_left 1 _)⟩

theorem contentSem_mem (m : Option (String → String → ℚ)) (t i : String) :
    0 ≤ (calculateEnhancedContentScore m t i).semanticSim
      ∧ (calculateEnhancedContentScore m t i).semanticSim ≤ 1 := by
  simp only [calculateEnhancedContentScore]
  split_ifs with h
  · norm_num
  all_goals exact semanticSimilarity_mem m t i

theorem voiceSection_mem (c : Collab) (ap : Option String) :
    0 ≤ (voiceSection c ap).1 ∧ (voiceSection c ap).1 ≤ 100 := by
  unfold voiceSection
  rcases ap with _ | p
  · norm_num
  · rcases hv : c.voiceSvc p with _ | vr <;> simp only [hv]
    · norm_num
    · exact ⟨clampScore_nonneg _, clampScore_le_100 _⟩

theorem finalFromRaw_eq (raw penalty : ℚ) (cap : Option ℚ) :
    finalFromRaw raw penalty cap
      = max 0 (min 100 (min (raw - penalty) (cap.getD 100))) := by
  unfold finalFromRaw clampScore
  cases cap with
  | some c => rfl
  | none =>
    simp only [Option.getD]
    congr 1
    rw [min_comm (raw - penalty) 100, ← min_assoc, min_self]

theorem wpm_pace_eq (w : ℚ) : (getWpmAssessment w).2 = pacePenaltySpec w := by
  unfold getWpmAssessment pacePenaltySpec
  rcases lt_or_le w 100 with h1 | h1
  · have c1 : ¬(130 ≤ w ∧ w ≤ 160) := by rintro ⟨ha, _⟩; linarith
    have c2 : ¬((100 ≤ w ∧ w < 130) ∨ (160 < w ∧ w ≤ 180)) := by
      rintro (⟨ha, _⟩ | ⟨ha, _⟩) <;> linarith
    simp [h1, c1, c2]
  · have hnl : ¬ w < 100 := not_lt.mpr h1
    rcases lt_or_le (180:ℚ) w with h2 | h2
    · have c1 : ¬(130 ≤ w ∧ w ≤ 160) := by rintro ⟨_, hb⟩; linarith
      have c2 : ¬((100 ≤ w ∧ w < 130) ∨ (160 < w ∧ w ≤ 180)) := by
        rintro (⟨_, hb⟩ | ⟨_, hb⟩) <;> linarith
      simp [hnl, h2, c1, c2]
    · have hnf : ¬ 180 < w := not_lt.mpr h2
      by_cases h3 : 130 ≤ w ∧ w ≤ 160
      · simp [hnl, hnf, h3]
      · rcases lt_or_le w 130 with h4 | h4
        · have c5 : (100 ≤ w ∧ w < 130) ∨ (160 < w ∧ w ≤ 180) := Or.inl ⟨h1, h4⟩
          simp [hnl, hnf, h3, h4, c5]
          rw [if_pos (Or.inl h1)]
        · have h5 : 160 < w := by
            by_contra hc
            exact h3 ⟨h4, not_lt.mp hc⟩
          have c5 : (100 ≤ w ∧ w < 130) ∨ (160 < w ∧ w ≤ 180) := Or.inr ⟨h5, h2⟩
          simp [hnl, hnf, h3, not_lt.mpr h4, c5]
          rw [if_pos ⟨h5, h2⟩]

theorem scoreAnswer_content_eq (c : Collab) (t : String) (d : ℚ) (i : String)
    (ap : Option String) (vs : Option VideoSignals)
    (h : ¬(t = "" ∨ (pyStrip t).length < 5)) :
    (scoreAnswer c t d i ap vs).content
      = clampScore (calculateEnhancedContentScore c.simModel t i).finalScore := by
  simp [scoreAnswer, if_neg h]

theorem scoreAnswer_final_eq (c : Collab) (t : String) (d : ℚ) (i : String)
    (ap : Option String) (vs : Option VideoSignals)
    (h : ¬(t = "" ∨ (pyStrip t).length < 5)) :
    (scoreAnswer c t d i ap vs).final
      = finalFromRaw ((scoreAnswer c t d i ap vs).content * (30/100)
          + (scoreAnswer c t d i ap vs).delivery * (15/100)
          + (scoreAnswer c t d i ap vs).communication * (15/100)
          + (scoreAnswer c t d i ap vs).voice * (15/100)
          + (scoreAnswer c t d i ap vs).confidence * (15/100)
          + (scoreAnswer c t d i ap vs).structureScore * (10/100))
          (scoreAnswer c t d i ap vs).qualityPenaltyTotal
          (scoreAnswer c t d i ap vs).qualityScoreCap := by
  simp [scoreAnswer, if_neg h]

theorem scoreAnswer_delivery_eq (c : Collab) (t : String) (d : ℚ) (i : String)
    (ap : Option String) (vs : Option VideoSignals)
    (h : ¬(t = "" ∨ (pyStrip t).length < 5)) :
    (scoreAnswer c t d i ap vs).delivery
      = clampScore (100 - ((getWpmAssessment (computeWpm t d)).2 : ℚ)
          - min 30 (((countFillers t).1 : ℚ) * 2)) := by
  simp [scoreAnswer, if_neg h]

theorem scoreAnswer_communication_eq (c : Collab) (t : String) (d : ℚ) (i : String)
    (ap : Option String) (vs : Option VideoSignals)
    (h : ¬(t = "" ∨ (pyStrip t).length < 5)) :
    (scoreAnswer c t d i ap vs).communication
      = clampScore (calculateEnhancedCommunicationScore c.grammarTool t).finalScore := by
  simp [scoreAnswer, if_neg h]

theorem scoreAnswer_voice_eq (c : Collab) (t : String) (d : ℚ) (i : String)
    (ap : Option String) (vs : Option VideoSignals)
    (h : ¬(t = "" ∨ (pyStrip t).length < 5)) :
    (scoreAnswer c t d i ap vs).voice = (voiceSection c ap).1 := by
  simp [scoreAnswer, if_neg h]

theorem scoreAnswer_confidence_eq (c : Collab) (t : String) (d : ℚ) (i : String)
    (ap : Option String) (vs : Option VideoSignals)
    (h : ¬(t = "" ∨ (pyStrip t).length < 5)) :
    (scoreAnswer c t d i ap vs).confidence
      = clampScore (calculateConfidenceScore (voiceSection c ap).2
          (vs.getD ⟨70, 70, 70⟩).eyeContact (vs.getD ⟨70, 70, 70⟩).bodyStability
          (vs.getD ⟨70, 70, 70⟩).emotionPositivity) := by
  simp [scoreAnswer, if_neg h]

theorem scoreAnswer_structure_eq (c : Collab) (t : String) (d : ℚ) (i : String)
    (ap : Option String) (vs : Option VideoSignals)
    (h : ¬(t = "" ∨ (pyStrip t).length < 5)) :
    (scoreAnswer c t d i ap vs).structureScore
      = clampScore (calculateStructureScore t).finalScore := by
  simp [scoreAnswer, if_neg h]

theorem scoreAnswer_relevance_eq (c : Collab) (t : String) (d : ℚ) (i : String)
    (ap : Option String) (vs : Option VideoSignals)
    (h : ¬(t = "" ∨ (pyStrip t).length < 5)) :
    (scoreAnswer c t d i ap vs).relevance
      = (calculateEnhancedContentScore c.simModel t i).semanticSim := by
  simp [scoreAnswer, if_neg h]

theorem scoreAnswer_gates_eq (c : Collab) (t : String) (d : ℚ) (i : String)
    (ap : Option String) (vs : Option VideoSignals)
    (h : ¬(t = "" ∨ (pyStrip t).length < 5)) :
    (scoreAnswer c t d i ap vs).qualityPenaltyTotal
        = (applyQualityGates t
            ⟨(scoreAnswer c t d i ap vs).fillerCount,
              (scoreAnswer c t d i ap vs).relevance,
              (scoreAnswer c t d i ap vs).structureScore⟩ i).totalPenalty
      ∧ (scoreAnswer c t d i ap vs).qualityScoreCap
        = (applyQualityGates t
            ⟨(scoreAnswer c t d i ap vs).fillerCount,
              (scoreAnswer c t d i ap vs).relevance,
              (scoreAnswer c t d i ap vs).structureScore⟩ i).scoreCap := by
  constructor <;> simp [scoreAnswer, if_neg h]

theorem contentScore_empty_ideal (m : Option (String → String → ℚ)) (t : String) :
    (calculateEnhancedContentScore m t "").finalScore = 0 := by
  simp only [calculateEnhancedContentScore]
  split_ifs with h1 <;>
    simp [analyzeContentKeywords, semanticSimilarity]

theorem gateShort_cap_40 (wc : ℕ) (r : GateResult) (h15 : wc < 15) (h10 : wc < 10) :
    (gateShort wc r).scoreCap = some 40 := by
  unfold gateShort
  rw [if_pos h15]
  simp [if_pos h10]

theorem gateUnique_cap (u : ℕ) (r : GateResult) :
    (gateUnique u r).scoreCap = r.scoreCap := by
  unfold gateUnique; split_ifs <;> rfl

theorem gateFiller_cap (f : ℚ) (r : GateResult) :
    (gateFiller f r).scoreCap = r.scoreCap := by
  unfold gateFiller; split_ifs <;> rfl

theorem gateRelevance_skip (rel : ℚ) (ideal : String) (r : GateResult)
    (h : ¬(rel < 25/100 ∧ ideal ≠ "")) : gateRelevance rel ideal r = r := by
  unfold gateRelevance; rw [if_neg h]

theorem gateRepetition_cap (ws : List String) (wc : ℕ) (r : GateResult) :
    (gateRepetition ws wc r).scoreCap = r.scoreCap := by
  simp only [gateRepetition]
  split_ifs <;> rfl

theorem gateNonsense_skip (nr : NonsenseResult) (r : GateResult)
    (h : ¬(nr.isNonsense = true)) : gateNonsense nr r = r := by
  unfold gateNonsense; rw [if_neg h]

theorem gateCoherence_cap (coh : ℚ) (r : GateResult) :
    (gateCoherence coh r).scoreCap = r.scoreCap := by
  unfold gateCoherence; split_ifs <;> rfl

theorem gateStructure_cap_40 (s : ℚ) (r : GateResult) (h : r.scoreCap = some 40) :
    (gateStructure s r).scoreCap = some 40 := by
  unfold gateStructure
  split_ifs with hc
  · exfalso
    have h2 := hc.2
    rw [h] at h2
    exact absurd h2 (by decide)
  · exact h

theorem confidence_clamped_mem (q : ℚ) : 0 ≤ min 100 (max 0 q) ∧ min 100 (max 0 q) ≤ 100 :=
  ⟨le_min (by norm_num) (le_max_left 0 q), min_le_left 100 _⟩

/-! ## Claim theorems -/

/-- C1: in the full 6-score mode (for transcripts long enough to be scored),
the returned final score equals clamp(min(rawFinal - qualityPenaltyTotal,
scoreCap when a cap applies else 100), 0, 100), where rawFinal is the
weighted sum 0.30 content + 0.15 delivery + 0.15 communication + 0.15 voice
+ 0.15 confidence + 0.10 structure of the returned category scores and the
penalty total and cap are the quality-gate outputs of the same call. -/
theorem C1_full_final_formula (c : Collab) (t : String) (d : ℚ) (i : String)
    (ap : Option String) (vs : Option VideoSignals)
    (h : ¬(t = "" ∨ (pyStrip t).length < 5)) :
    (scoreAnswer c t d i ap vs).final
      = max 0 (min 100 (min
          ((scoreAnswer c t d i ap vs).content * (30/100)
            + (scoreAnswer c t d i ap vs).delivery * (15/100)
            + (scoreAnswer c t d i ap vs).communication * (15/100)
            + (scoreAnswer c t d i ap vs).voice * (15/100)
            + (scoreAnswer c t d i ap vs).confidence * (15/100)
            + (scoreAnswer c t d i ap vs).structureScore * (10/100)
            - (scoreAnswer c t d i ap vs).qualityPenaltyTotal)
          (((scoreAnswer c t d i ap vs).qualityScoreCap).getD 100)))
    ∧ (scoreAnswer c t d i ap vs).qualityPenaltyTotal
        = (applyQualityGates t
            ⟨(scoreAnswer c t d i ap vs).fillerCount,
              (scoreAnswer c t d i ap vs).relevance,
              (scoreAnswer c t d i ap vs).structureScore⟩ i).totalPenalty
    ∧ (scoreAnswer c t d i ap vs).qualityScoreCap
        = (applyQualityGates t
            ⟨(scoreAnswer c t d i ap vs).fillerCount,
              (scoreAnswer c t d i ap vs).relevance,
              (scoreAnswer c t d i ap vs).structureScore⟩ i).scoreCap := by
  refine ⟨?_, scoreAnswer_gates_eq c t d i ap vs h⟩
  rw [scoreAnswer_final_eq c t d i ap vs h, finalFromRaw_eq]

/-- Witness for C1 at a concrete call. -/
theorem C1_full_final_formula_witness :
    (scoreAnswer collabNone "i implemented the project" 30 "the project plan" none none).final
      = max 0 (min 100 (min
          ((scoreAnswer collabNone "i implemented the project" 30 "the project plan" none none).content * (30/100)
            + (scoreAnswer collabNone "i implemented the project" 30 "the project plan" none none).delivery * (15/100)
            + (scoreAnswer collabNone "i implemented the project" 30 "the project plan" none none).communication * (15/100)
            + (scoreAnswer collabNone "i implemented the project" 30 "the project plan" none none).voice * (15/100)
            + (scoreAnswer collabNone "i implemented the project" 30 "the project plan" none none).confidence * (15/100)
            + (scoreAnswer collabNone "i implemented the project" 30 "the project plan" none none).structureScore * (10/100)
            - (scoreAnswer collabNone "i implemented the project" 30 "the project plan" none none).qualityPenaltyTotal)
          (((scoreAnswer collabNone "i implemented the project" 30 "the project plan" none none).qualityScoreCap).getD 100))) :=
  (C1_full_final_formula collabNone "i implemented the project" 30 "the project plan" none none (by decide)).1

/-- C2: for every input and collaborator state, each of the six category
scores and the final score of the full pipeline lies in [0,100] and the
relevance value lies in [0,1]. -/
theorem C2_score_bounds (c : Collab) (t : String) (d : ℚ) (i : String)
    (ap : Option String) (vs : Option VideoSignals) :
    (0 ≤ (scoreAnswer c t d i ap vs).content ∧ (scoreAnswer c t d i ap vs).content ≤ 100)
    ∧ (0 ≤ (scoreAnswer c t d i ap vs).delivery ∧ (scoreAnswer c t d i ap vs).delivery ≤ 100)
    ∧ (0 ≤ (scoreAnswer c t d i ap vs).communication ∧ (scoreAnswer c t d i ap vs).communication ≤ 100)
    ∧ (0 ≤ (scoreAnswer c t d i ap vs).voice ∧ (scoreAnswer c t d i ap vs).voice ≤ 100)
    ∧ (0 ≤ (scoreAnswer c t d i ap vs).confidence ∧ (scoreAnswer c t d i ap vs).confidence ≤ 100)
    ∧ (0 ≤ (scoreAnswer c t d i ap vs).structureScore ∧ (scoreAnswer c t d i ap vs).structureScore ≤ 100)
    ∧ (0 ≤ (scoreAnswer c t d i ap vs).final ∧ (scoreAnswer c t d i ap vs).final ≤ 100)
    ∧ (0 ≤ (scoreAnswer c t d i ap vs).relevance ∧ (scoreAnswer c t d i ap vs).relevance ≤ 1) := by
  by_cases h : t = "" ∨ (pyStrip t).length < 5
  · have he : scoreAnswer c t d i ap vs = ⟨0, 0, 0, 70, 70, 0, 0, 0, 0, 0, 0, 0, [], 0, none⟩ := by
      simp [scoreAnswer, if_pos h]
    rw [he]
    norm_num
  · refine ⟨?_, ?_, ?_, ?_, ?_, ?_, ?_, ?_⟩
    · rw [scoreAnswer_content_eq c t d i ap vs h]
      exact ⟨clampScore_nonneg _, clampScore_le_100 _⟩
    · rw [scoreAnswer_delivery_eq c t d i ap vs h]
      exact ⟨clampScore_nonneg _, clampScore_le_100 _⟩
    · rw [scoreAnswer_communication_eq c t d i ap vs h]
      exact ⟨clampScore_nonneg _, clampScore_le_100 _⟩
    · rw [scoreAnswer_voice_eq c t d i ap vs h]
      exact voiceSection_mem c ap
    · rw [scoreAnswer_confidence_eq c t d i ap vs h]
      exact ⟨clampScore_nonneg _, clampScore_le_100 _⟩
    · rw [scoreAnswer_structure_eq c t d i ap vs h]
      exact ⟨clampScore_nonneg _, clampScore_le_100 _⟩
    · rw [scoreAnswer_final_eq c t d i ap vs h]
      unfold finalFromRaw
      exact ⟨clampScore_nonneg _, clampScore_le_100 _⟩
    · rw [scoreAnswer_relevance_eq c t d i ap vs h]
      exact contentSem_mem c.simModel t i

/-- C3 counterexample: the empty transcript does not yield six zero
sub-scores, since the early-return result carries the neutral voice value
70. -/
theorem C3_counterexample :
    (scoreAnswer collabNone "" 30 "some reference answer" none none).voice = 70
      ∧ ((70 : ℚ) ≠ 0) := by
  constructor
  · decide
  · norm_num

/-- C3 as amended: the empty (or under-5-character) transcript raises no
exception and yields final = 0 with content, delivery, communication and
structure all 0, while voice and confidence hold their neutral default
70. -/
theorem C3_amended (c : Collab) (t : String) (d : ℚ) (i : String) (ap : Option String)
    (vs : Option VideoSignals) (h : t = "" ∨ (pyStrip t).length < 5) :
    (scoreAnswer c t d i ap vs).final = 0
      ∧ (scoreAnswer c t d i ap vs).content = 0
      ∧ (scoreAnswer c t d i ap vs).delivery = 0
      ∧ (scoreAnswer c t d i ap vs).communication = 0
      ∧ (scoreAnswer c t d i ap vs).structureScore = 0
      ∧ (scoreAnswer c t d i ap vs).voice = 70
      ∧ (scoreAnswer c t d i ap vs).confidence = 70 := by
  simp [scoreAnswer, if_pos h]

/-- Witness for C3 as amended at the empty transcript. -/
theorem C3_amended_witness :
    (scoreAnswer collabNone "" 30 "some reference answer" none none).final = 0
      ∧ (scoreAnswer collabNone "" 30 "some reference answer" none none).content = 0
      ∧ (scoreAnswer collabNone "" 30 "some reference answer" none none).delivery = 0
      ∧ (scoreAnswer collabNone "" 30 "some reference answer" none none).communication = 0
      ∧ (scoreAnswer collabNone "" 30 "some reference answer" none none).structureScore = 0
      ∧ (scoreAnswer collabNone "" 30 "some reference answer" none none).voice = 70
      ∧ (scoreAnswer collabNone "" 30 "some reference answer" none none).confidence = 70 :=
  C3_amended collabNone "" 30 "some reference answer" none none (by decide)

/-- C4 counterexample: the keyword-only final is not the renormalized
weighted combination; at this concrete call the sub-scores are 100, 70 and
37.5 and the final is 46.125, not the renormalized 76.875. -/
theorem C4_counterexample :
    (scoreAnswerByKeywords none none "i implemented the project" ["implemented", "project"] 30 "").content = 100
    ∧ (scoreAnswerByKeywords none none "i implemented the project" ["implemented", "project"] 30 "").delivery = 70
    ∧ (scoreAnswerByKeywords none none "i implemented the project" ["implemented", "project"] 30 "").communication = 75/2
    ∧ (scoreAnswerByKeywords none none "i implemented the project" ["implemented", "project"] 30 "").final = 369/8
    ∧ (369/8 : ℚ) ≠ (100 * (30/100) + 70 * (15/100) + (75/2) * (15/100)) / (30/100 + 15/100 + 15/100) := by
  refine ⟨by with_unfolding_all decide, by with_unfolding_all decide, by with_unfolding_all decide, by with_unfolding_all decide, by norm_num⟩

/-- C4 as amended: in keyword-only mode the final score is the weighted sum
content 0.30 + delivery 0.15 + communication 0.15 applied directly, without
renormalization (so three perfect sub-scores yield 60, not 100); voice,
confidence, structure and the quality gates play no part in this mode. -/
theorem C4_amended (m : Option (String → String → ℚ))
    (tool : Option (String → ℕ × List String)) (t : String) (kws : List String)
    (dur : ℚ) (ideal : String) (h : ¬(t = "" ∨ (pyStrip t).length < 5)) :
    (scoreAnswerByKeywords m tool t kws dur ideal).final
      = max 0 (min 100 ((scoreAnswerByKeywords m tool t kws dur ideal).content * (30/100)
          + (scoreAnswerByKeywords m tool t kws dur ideal).delivery * (15/100)
          + (scoreAnswerByKeywords m tool t kws dur ideal).communication * (15/100))) := by
  simp [scoreAnswerByKeywords, if_neg h]

/-- Witness for C4 as amended at a concrete call. -/
theorem C4_amended_witness :
    (scoreAnswerByKeywords none none "i implemented the project" ["implemented", "project"] 30 "").final
      = max 0 (min 100 ((scoreAnswerByKeywords none none "i implemented the project" ["implemented", "project"] 30 "").content * (30/100)
          + (scoreAnswerByKeywords none none "i implemented the project" ["implemented", "project"] 30 "").delivery * (15/100)
          + (scoreAnswerByKeywords none none "i implemented the project" ["implemented", "project"] 30 "").communication * (15/100))) :=
  C4_amended none none "i implemented the project" ["implemented", "project"] 30 "" (by decide)

/-- C5 counterexample: a six-word transcript (fewer than 10 words) whose
gates detect nonsense ends with scoreCap 15, not 40, even with high
relevance and structure inputs. -/
theorem C5_counterexample :
    (pySplit "asdf asdf asdf asdf asdf asdf").length < 10
    ∧ (applyQualityGates "asdf asdf asdf asdf asdf asdf" ⟨0, 9/10, 100⟩
        "reference answer").scoreCap = some 15
    ∧ (some (15:ℚ) ≠ some (40:ℚ)) :=
  ⟨by decide, by with_unfolding_all decide, by decide⟩

/-- C5 as amended: for a nonempty transcript of fewer than 10 words,
scoreCap is 40 provided no later cap-setting gate fires, i.e. the
transcript is not flagged as nonsense and the relevance gate does not
trigger. -/
theorem C5_amended (t : String) (s : GateScores) (ideal : String)
    (ht : t ≠ "") (hwc : (pySplit t).length < 10)
    (hnon : ¬((detectNonsense t).isNonsense = true))
    (hrel : ¬(s.relevance < 25/100 ∧ ideal ≠ "")) :
    (applyQualityGates t s ideal).scoreCap = some 40 := by
  have h15 : (pySplit t).length < 15 := by omega
  simp only [applyQualityGates, if_neg ht]
  rw [gateStructure_cap_40]
  rw [gateCoherence_cap, gateNonsense_skip _ _ hnon, gateRepetition_cap,
    gateRelevance_skip _ _ _ hrel, gateFiller_cap, gateUnique_cap]
  exact gateShort_cap_40 _ _ h15 hwc

/-- Witness for C5 as amended on a clean five-word transcript. -/
theorem C5_amended_witness :
    (applyQualityGates "alpha beta gamma delta epsilon" ⟨0, 9/10, 100⟩ "").scoreCap = some 40 :=
  C5_amended "alpha beta gamma delta epsilon" ⟨0, 9/10, 100⟩ ""
    (by decide) (by decide) (by with_unfolding_all decide) (by with_unfolding_all decide)

/-- C6 counterexample: in the full pipeline an empty ideal answer yields a
content score of 0, not the neutral 50 the claim promises for both modes. -/
theorem C6_counterexample :
    (scoreAnswer collabNone "i implemented the project successfully today" 30 "" none none).content = 0
    ∧ ((0 : ℚ) ≠ 50) :=
  ⟨by with_unfolding_all decide, by norm_num⟩

/-- C6 as amended: with empty keywords and empty ideal answer, the
keyword-only mode returns the neutral content score 50 (for transcripts long
enough to be scored), while the full mode returns content 0. -/
theorem C6_amended (t : String) (dur : ℚ) (h : ¬(t = "" ∨ (pyStrip t).length < 5)) :
    (∀ (m : Option (String → String → ℚ)) (tool : Option (String → ℕ × List String)),
        (scoreAnswerByKeywords m tool t [] dur "").content = 50)
    ∧ (∀ (c : Collab) (ap : Option String) (vs : Option VideoSignals),
        (scoreAnswer c t dur "" ap vs).content = 0) := by
  constructor
  · intro m tool
    simp [scoreAnswerByKeywords, if_neg h]
  · intro c ap vs
    rw [scoreAnswer_content_eq c t dur "" ap vs h, contentScore_empty_ideal]
    simp [clampScore]

/-- Witness for C6 as amended at a concrete transcript. -/
theorem C6_amended_witness :
    (scoreAnswerByKeywords none none "i implemented the project successfully today" [] 30 "").content = 50
    ∧ (scoreAnswer collabNone "i implemented the project successfully today" 30 "" none none).content = 0 :=
  ⟨(C6_amended "i implemented the project successfully today" 30 (by decide)).1 none none,
    (C6_amended "i implemented the project successfully today" 30 (by decide)).2 collabNone none none⟩

/-- C7 counterexample: with 20 grammar errors the grammar factor is 40,
below the 60 floor the claim asserts; the 40-point penalty cap is never
applied. -/
theorem C7_counterexample :
    ((calculateEnhancedCommunicationScore (some (fun _ => (20, [])))
        "this is a sample answer for the test").factors.map (fun f => f.grammarScore)) = some 40
    ∧ ¬((60 : ℚ) ≤ 40) :=
  ⟨by with_unfolding_all decide, by norm_num⟩

/-- C7 as amended: the grammar factor equals 100 - 3e clamped to [0,100];
the configured MAX_GRAMMAR_PENALTY = 40 is never applied, so the factor
falls to 0 once the error count reaches 34. -/
theorem C7_amended (tool : Option (String → ℕ × List String)) (t : String)
    (h : ¬(t = "" ∨ (pyStrip t).length < 10)) :
    ∃ fs, (calculateEnhancedCommunicationScore tool t).factors = some fs
      ∧ fs.grammarScore
          = min 100 (max 0 (100 - ((estimateGrammarErrors tool t).1 : ℚ) * 3)) := by
  simp only [calculateEnhancedCommunicationScore, if_neg h]
  exact ⟨_, rfl, rfl⟩

/-- Witness for C7 as amended with a 34-error grammar collaborator. -/
theorem C7_amended_witness :
    ∃ fs, (calculateEnhancedCommunicationScore (some (fun _ => (34, [])))
        "a sample answer given here today").factors = some fs
      ∧ fs.grammarScore
          = min 100 (max 0 (100 - ((estimateGrammarErrors (some (fun _ => (34, [])))
              "a sample answer given here today").1 : ℚ) * 3)) :=
  C7_amended (some (fun _ => (34, []))) "a sample answer given here today" (by decide)

/-- C8: the delivery pace penalty is 0 on the optimal range [130,160], 5 on
the near-optimal shoulders, and outside the acceptable window [100,180] a
linear penalty capped at 30, scaled by the distance from the nearest window
bound with coefficient 0.5 below 100 and 0.3 above 180. -/
theorem C8_pace_penalty (w : ℚ) : (getWpmAssessment w).2 = pacePenaltySpec w :=
  wpm_pace_eq w

end MLEngine

namespace MLEngine

/-! ## Keyword-extraction membership lemmas (for C9) -/

theorem mem_insDescByCount {x p : String × ℕ} {l : List (String × ℕ)}
    (h : p ∈ insDescByCount x l) : p = x ∨ p ∈ l := by
  induction l with
  | nil => simpa [insDescByCount] using h
  | cons y ys ih =>
    simp only [insDescByCount] at h
    split_ifs at h with hc
    · rcases List.mem_cons.mp h with h1 | h1
      · exact Or.inr (List.mem_cons.mpr (Or.inl h1))
      · rcases ih h1 with h2 | h2
        · exact Or.inl h2
        · exact Or.inr (List.mem_cons.mpr (Or.inr h2))
    · rcases List.mem_cons.mp h with h1 | h1
      · exact Or.inl h1
      · exact Or.inr h1

theorem mem_sortDescByCount {p : String × ℕ} {l : List (String × ℕ)}
    (h : p ∈ sortDescByCount l) : p ∈ l := by
  induction l with
  | nil => simp [sortDescByCount] at h
  | cons y ys ih =>
    simp only [sortDescByCount, List.foldr] at h
    rcases mem_insDescByCount h with h1 | h1
    · simp [h1]
    · exact List.mem_cons.mpr (Or.inr (ih (by simpa [sortDescByCount] using h1)))

theorem mem_bumpCount {w : String} {p : String × ℕ} {l : List (String × ℕ)}
    (h : p ∈ bumpCount w l) : p.1 = w ∨ ∃ q ∈ l, p.1 = q.1 := by
  induction l with
  | nil =>
    simp [bumpCount] at h
    simp [h]
  | cons y ys ih =>
    simp only [bumpCount] at h
    split_ifs at h with hc
    · rcases List.mem_cons.mp h with h1 | h1
      · left; rw [h1]; exact hc
      · exact Or.inr ⟨p, List.mem_cons.mpr (Or.inr h1), rfl⟩
    · rcases List.mem_cons.mp h with h1 | h1
      · exact Or.inr ⟨y, List.mem_cons.mpr (Or.inl rfl), by rw [h1]⟩
      · rcases ih h1 with h2 | h2
        · exact Or.inl h2
        · obtain ⟨q, hq, he⟩ := h2
          exact Or.inr ⟨q, List.mem_cons.mpr (Or.inr hq), he⟩

theorem wordCounts_keys_aux {p : String × ℕ} :
    ∀ (ws : List String) (acc : List (String × ℕ)),
      p ∈ ws.foldl (fun a w => bumpCount w a) acc →
      p.1 ∈ ws ∨ ∃ q ∈ acc, p.1 = q.1 := by
  intro ws
  induction ws with
  | nil => intro acc h; exact Or.inr ⟨p, h, rfl⟩
  | cons w ws ih =>
    intro acc h
    rcases ih (bumpCount w acc) h with h1 | h1
    · exact Or.inl (List.mem_cons.mpr (Or.inr h1))
    · obtain ⟨q, hq, he⟩ := h1
      rcases mem_bumpCount hq with h2 | h2
      · left
        rw [he, h2]
        exact List.mem_cons.mpr (Or.inl rfl)
      · obtain ⟨q2, hq2, he2⟩ := h2
        exact Or.inr ⟨q2, hq2, he.trans he2⟩

theorem wordCounts_keys {p : String × ℕ} {ws : List String}
    (h : p ∈ wordCounts ws) : p.1 ∈ ws := by
  rcases wordCounts_keys_aux ws [] h with h1 | h1
  · exact h1
  · obtain ⟨q, hq, _⟩ := h1
    simp at hq

theorem extractKeywords_mem {kw : String} {t : String} {n : ℕ}
    (h : kw ∈ extractKeywords t n) : kw ∈ alphaTokens3 (lowerS t) := by
  simp only [extractKeywords, List.mem_map] at h
  obtain ⟨p, hp, he⟩ := h
  have h1 : p ∈ sortDescByCount (wordCounts
      ((alphaTokens3 (lowerS t)).filter (fun w => !stopWords.contains w))) :=
    List.mem_of_mem_take hp
  have h2 := wordCounts_keys (mem_sortDescByCount h1)
  rw [← he]
  exact List.mem_of_mem_filter h2

/-! ## Lowercase idempotence (for C9) -/

theorem char_toNat_ofNat_of_valid (n : ℕ) (h : n < 55296) : (Char.ofNat n).toNat = n := by
  have hv : n.isValidChar := Or.inl h
  simp only [Char.ofNat, hv, reduceDIte, Char.ofNatAux, Char.toNat]
  rfl

theorem toLower_idem (c : Char) : c.toLower.toLower = c.toLower := by
  show (if c.toLower.toNat ≥ 65 ∧ c.toLower.toNat ≤ 90
      then Char.ofNat (c.toLower.toNat + 32) else c.toLower) = c.toLower
  by_cases h : c.toNat ≥ 65 ∧ c.toNat ≤ 90
  · have h1 : c.toLower = Char.ofNat (c.toNat + 32) := by
      show (if c.toNat ≥ 65 ∧ c.toNat ≤ 90 then Char.ofNat (c.toNat + 32) else c) = _
      rw [if_pos h]
    have hv : (Char.ofNat (c.toNat + 32)).toNat = c.toNat + 32 :=
      char_toNat_ofNat_of_valid _ (by omega)
    rw [h1, if_neg (by rw [hv]; omega)]
  · have h1 : c.toLower = c := by
      show (if c.toNat ≥ 65 ∧ c.toNat ≤ 90 then Char.ofNat (c.toNat + 32) else c) = _
      rw [if_neg h]
    rw [h1, if_neg h]

theorem map_id_of_fixed {f : Char → Char} :
    ∀ {l : List Char}, (∀ c ∈ l, f c = c) → l.map f = l := by
  intro l
  induction l with
  | nil => intro _; rfl
  | cons c cs ih =>
    intro h
    simp only [List.map_cons]
    rw [h c (List.mem_cons.mpr (Or.inl rfl)), ih (fun x hx => h x (List.mem_cons.mpr (Or.inr hx)))]

theorem runsAux_chars {p : Char → Bool} :
    ∀ (l acc : List Char) (run : List Char), run ∈ runsAux p l acc →
      ∀ c ∈ run, c ∈ l ∨ c ∈ acc := by
  intro l
  induction l with
  | nil =>
    intro acc run h c hc
    simp only [runsAux] at h
    split_ifs at h with he
    · simp at h
    · simp only [List.mem_singleton] at h
      right
      rw [h] at hc
      exact List.mem_reverse.mp hc
  | cons x xs ih =>
    intro acc run h c hc
    simp only [runsAux] at h
    split_ifs at h with h1 h2
    · rcases ih (x :: acc) run h c hc with hm | hm
      · exact Or.inl (List.mem_cons.mpr (Or.inr hm))
      · rcases List.mem_cons.mp hm with hm2 | hm2
        · exact Or.inl (List.mem_cons.mpr (Or.inl hm2))
        · exact Or.inr hm2
    · rcases ih [] run h c hc with hm | hm
      · exact Or.inl (List.mem_cons.mpr (Or.inr hm))
      · simp at hm
    · rcases List.mem_cons.mp h with hr | hr
      · right
        rw [hr] at hc
        exact List.mem_reverse.mp hc
      · rcases ih [] run hr c hc with hm | hm
        · exact Or.inl (List.mem_cons.mpr (Or.inr hm))
        · simp at hm

theorem wordRuns_lower_fixed {t : String} {w : String}
    (h : w ∈ wordRuns (lowerS t)) : lowerS w = w := by
  simp only [wordRuns, List.mem_map] at h
  obtain ⟨run, hrun, he⟩ := h
  have hchars : ∀ c ∈ run, c ∈ (lowerS t).data :=  by
    intro c hc
    rcases runsAux_chars (lowerS t).data [] run hrun c hc with h1 | h1
    · exact h1
    · simp at h1
  have hfix : ∀ c ∈ run, Char.toLower c = c := by
    intro c hc
    have := hchars c hc
    simp only [lowerS, List.mem_map] at this
    obtain ⟨y, _, hy⟩ := this
    rw [← hy, toLower_idem]
  rw [← he]
  show String.mk (run.map Char.toLower) = String.mk run
  rw [map_id_of_fixed hfix]

theorem alphaTokens3_lower_fixed {t : String} {w : String}
    (h : w ∈ alphaTokens3 (lowerS t)) : lowerS w = w :=
  wordRuns_lower_fixed (List.mem_of_mem_filter h)

/-! ## Self-similarity and full-coverage lemmas (for C9) -/

theorem mem_dedupFirstAux {x : String} :
    ∀ (l seen : List String), x ∈ dedupFirstAux seen l ↔ (x ∈ l ∧ x ∉ seen) := by
  intro l
  induction l with
  | nil => intro seen; simp [dedupFirstAux]
  | cons y ys ih =>
    intro seen
    simp only [dedupFirstAux]
    split_ifs with hc
    · rw [ih seen]
      have hy : y ∈ seen := by
        have := List.elem_iff.mp hc
        exact this
      constructor
      · rintro ⟨h1, h2⟩
        exact ⟨List.mem_cons.mpr (Or.inr h1), h2⟩
      · rintro ⟨h1, h2⟩
        rcases List.mem_cons.mp h1 with h3 | h3
        · exact absurd (h3 ▸ hy) h2
        · exact ⟨h3, h2⟩
    · constructor
      · intro h1
        rcases List.mem_cons.mp h1 with h3 | h3
        · constructor
          · exact List.mem_cons.mpr (Or.inl h3)
          · intro hx
            rw [h3] at hx
            exact hc (List.elem_iff.mpr hx)
        · rw [ih (y :: seen)] at h3
          refine ⟨List.mem_cons.mpr (Or.inr h3.1), fun hx => h3.2 (List.mem_cons.mpr (Or.inr hx))⟩
      · rintro ⟨h1, h2⟩
        by_cases hxy : x = y
        · exact List.mem_cons.mpr (Or.inl hxy)
        · have h3 : x ∈ ys := by
            rcases List.mem_cons.mp h1 with h4 | h4
            · exact absurd h4 hxy
            · exact h4
          refine List.mem_cons.mpr (Or.inr ((ih (y :: seen)).mpr ⟨h3, ?_⟩))
          intro hx
          rcases List.mem_cons.mp hx with h4 | h4
          · exact hxy h4
          · exact h2 h4

theorem mem_dedupFirst {x : String} {l : List String} : x ∈ dedupFirst l ↔ x ∈ l := by
  unfold dedupFirst
  rw [mem_dedupFirstAux]
  simp

end MLEngine

namespace MLEngine

theorem matchStep_fold_all_found (tw : List String) :
    ∀ (ks : List String) (acc : List String × List String),
      (∀ kw ∈ ks, tw.contains (lowerS kw) = true) →
      ks.foldl (matchStep tw) acc = (acc.1 ++ ks, acc.2) := by
  intro ks
  induction ks with
  | nil => intro acc _; simp
  | cons k ks ih =>
    intro acc h
    have hk : tw.contains (lowerS k) = true := h k (List.mem_cons.mpr (Or.inl rfl))
    have hstep : matchStep tw acc k = (acc.1 ++ [k], acc.2) := by
      unfold matchStep
      rw [if_pos]
      rw [hk]
      simp
    simp only [List.foldl, hstep]
    rw [ih (acc.1 ++ [k], acc.2) (fun kw hkw => h kw (List.mem_cons.mpr (Or.inr hkw)))]
    simp

theorem matchKeywords_self_all_found (t : String) (ks : List String)
    (ht : t ≠ "") (hks : ks ≠ [])
    (hmem : ∀ kw ∈ ks, kw ∈ alphaTokens3 (lowerS t) ∧ lowerS kw = kw) :
    matchKeywords t ks = (ks, []) := by
  unfold matchKeywords
  rw [if_neg (by push_neg; exact ⟨ht, hks⟩)]
  rw [matchStep_fold_all_found _ ks ([], []) ?_]
  · simp
  · intro kw hkw
    obtain ⟨hmem1, hfix⟩ := hmem kw hkw
    rw [hfix]
    exact List.elem_iff.mpr (mem_dedupFirst.mpr hmem1)

theorem jaccardLists_self (w : List String) (hw : w ≠ []) : jaccardLists w w = 1 := by
  simp only [jaccardLists]
  have h1 : w.filter (fun x => w.contains x) = w := by
    apply List.filter_eq_self.mpr
    intro a ha
    simpa using ha
  have h2 : w.filter (fun x => !w.contains x) = [] := by
    apply List.filter_eq_nil_iff.mpr
    intro a ha
    simpa using ha
  rw [h1, h2, List.append_nil]
  rw [if_neg (by simpa using hw)]
  have : (w.length : ℚ) ≠ 0 := by
    exact_mod_cast fun hz => hw (List.length_eq_zero.mp hz)
  exact div_self this

theorem dedupFirst_ne_nil {l : List String} (h : l ≠ []) : dedupFirst l ≠ [] := by
  cases l with
  | nil => exact absurd rfl h
  | cons x xs =>
    intro hz
    have hx : x ∈ dedupFirst (x :: xs) := mem_dedupFirst.mpr (List.mem_cons.mpr (Or.inl rfl))
    rw [hz] at hx
    simp at hx

theorem fallbackSimilarity_self (t : String) (h : pySplit (lowerS t) ≠ []) :
    fallbackSimilarity t t = 1 := by
  unfold fallbackSimilarity
  exact jaccardLists_self _ (dedupFirst_ne_nil h)

theorem semanticSimilarity_self_fallback (t : String) (ht : t ≠ "")
    (h : pySplit (lowerS t) ≠ []) : semanticSimilarity none t t = 1 := by
  simp only [semanticSimilarity]
  rw [if_neg (by push_neg; exact ⟨ht, ht⟩)]
  exact fallbackSimilarity_self t h

theorem analyzeContentKeywords_self (t : String) (ht : t ≠ "")
    (hik : extractKeywords t 15 ≠ []) :
    (analyzeContentKeywords t t).score = 100 ∧ (analyzeContentKeywords t t).keywordCoverage = 1 := by
  simp only [analyzeContentKeywords]
  rw [if_neg (by push_neg; exact ⟨ht, ht⟩), if_neg hik]
  have hm : matchKeywords t (extractKeywords t 15) = (extractKeywords t 15, []) := by
    apply matchKeywords_self_all_found t _ ht hik
    intro kw hkw
    exact ⟨extractKeywords_mem hkw, alphaTokens3_lower_fixed (extractKeywords_mem hkw)⟩
  rw [hm]
  have hlen : ((extractKeywords t 15).length : ℚ) ≠ 0 := by
    exact_mod_cast fun hz => hik (List.length_eq_zero.mp hz)
  have hcov : ((extractKeywords t 15).length : ℚ) / ((extractKeywords t 15).length : ℚ) = 1 :=
    div_self hlen
  constructor
  · show min 100 (max 0 _) = 100
    rw [hcov]
    rw [if_pos (by norm_num : (1:ℚ) ≥ 8/10)]
    norm_num
  · exact hcov

end MLEngine

namespace MLEngine

theorem contentScore_self (t : String) (ht : t ≠ "")
    (hstrip : ¬((pyStrip t).length < 10)) (hik : extractKeywords t 15 ≠ [])
    (htok : pySplit (lowerS t) ≠ []) :
    (calculateEnhancedContentScore none t t).finalScore = 100 := by
  simp only [calculateEnhancedContentScore]
  rw [if_neg (by push_neg; exact ⟨ht, not_lt.mp hstrip⟩)]
  have hka := analyzeContentKeywords_self t ht hik
  have hsem := semanticSimilarity_self_fallback t ht htok
  rw [hsem, hka.1]
  split_ifs <;> norm_num

theorem cosine_self_eq_one (v : List ℝ) (y : ℝ) (hv : 0 < dotR v v)
    (hy : cosineSimilarityIs v v y) : y = 1 := by
  have hne : Real.sqrt (dotR v v) ≠ 0 := ne_of_gt (Real.sqrt_pos.mpr hv)
  have h2 := hy.2 (by rintro (hh | hh) <;> exact hne hh)
  rw [h2, Real.mul_self_sqrt (le_of_lt hv), div_self (ne_of_gt hv)]
  norm_num

end MLEngine

namespace MLEngine

/-- C9 counterexample: a transcript built entirely from stop words, used as
its own ideal answer on the fallback path, gets content score 40 (keyword
extraction yields nothing, so the keyword side scores 0), refuting the
claimed content floor of 85. -/
theorem C9_counterexample :
    (calculateEnhancedContentScore none "and that can this with all each"
        "and that can this with all each").finalScore = 40
    ∧ ¬((85:ℚ) ≤ 40) :=
  ⟨by with_unfolding_all decide, by norm_num⟩

/-- C9 as amended: a transcript paired with itself has semantic similarity
exactly 1 on both paths (cosine of equal nonzero embeddings, and Jaccard of
equal token sets), hence at least 0.95; and the content score reaches 100,
hence at least 85, provided the transcript is at least 10 characters after
stripping and at least one keyword is extractable from it (a transcript of
stop words only scores 40). -/
theorem C9_amended :
    (∀ (v : List ℝ) (y : ℝ), 0 < dotR v v → cosineSimilarityIs v v y → y = 1)
    ∧ (∀ t : String, t ≠ "" → pySplit (lowerS t) ≠ [] →
        semanticSimilarity none t t = 1
        ∧ (¬((pyStrip t).length < 10) → extractKeywords t 15 ≠ [] →
            85 ≤ (calculateEnhancedContentScore none t t).finalScore)) := by
  constructor
  · exact cosine_self_eq_one
  · intro t ht htok
    refine ⟨semanticSimilarity_self_fallback t ht htok, fun hstrip hik => ?_⟩
    rw [contentScore_self t ht hstrip hik htok]
    norm_num

/-- Witness for C9 as amended at a concrete transcript. -/
theorem C9_amended_witness :
    semanticSimilarity none "i organized the project meeting with stakeholders yesterday"
        "i organized the project meeting with stakeholders yesterday" = 1
    ∧ 85 ≤ (calculateEnhancedContentScore none
        "i organized the project meeting with stakeholders yesterday"
        "i organized the project meeting with stakeholders yesterday").finalScore := by
  have h := C9_amended.2 "i organized the project meeting with stakeholders yesterday"
    (by decide) (by decide)
  exact ⟨h.1, h.2 (by decide) (by decide)⟩

end MLEngine

namespace MLEngine

theorem nonsensePattern1_short {tl : String} {x : String}
    (h : x ∈ nonsensePattern1 tl) : x.length ≤ 7 := by
  have hx : x ∈ nonsenseTestWords := by
    have h2 := (List.mem_filter.mp h).2
    exact List.elem_iff.mp h2
  revert hx
  have : ∀ y ∈ nonsenseTestWords, y.length ≤ 7 := by decide
  exact this x

theorem nonsensePattern2_len {tl : String} {x : String}
    (h : x ∈ nonsensePattern2 tl) : x.length = 1 := by
  simp only [nonsensePattern2, List.mem_map] at h
  obtain ⟨p, _, he⟩ := h
  rw [← he]
  rfl

theorem p3munch_len :
    ∀ (fuel : ℕ) (cs : List Char) (n : ℕ) (lu : List Char), lu.length ≤ 3 →
      (p3munch fuel cs n lu).2.1.length ≤ 3 := by
  intro fuel
  induction fuel with
  | zero => intro cs n lu h; exact h
  | succ f ih =>
    intro cs n lu h
    rcases cs with _ | ⟨c1, _ | ⟨c2, _ | ⟨c3, rest⟩⟩⟩
    · exact h
    · exact h
    · simp only [p3munch]
      split_ifs
      · norm_num
      · exact h
    · simp only [p3munch]
      split_ifs
      · exact ih rest (n + 1) [c1, c2, c3] (by norm_num)
      · exact ih (c3 :: rest) (n + 1) [c1, c2] (by norm_num)
      · exact h

theorem p3scan_len :
    ∀ (fuel : ℕ) (prev : Bool) (cs : List Char) (x : String),
      x ∈ p3scan fuel prev cs → x.length ≤ 3 := by
  intro fuel
  induction fuel with
  | zero => intro prev cs x h; simp [p3scan] at h
  | succ f ih =>
    intro prev cs x h
    rcases cs with _ | ⟨c, rest⟩
    · simp [p3scan] at h
    · simp only [p3scan] at h
      split_ifs at h with h1 h2
      · rcases List.mem_cons.mp h with he | hm
        · rw [he]
          exact p3munch_len _ _ _ _ (by norm_num)
        · exact ih _ _ _ hm
      · exact ih _ _ _ h
      · exact ih _ _ _ h

theorem nonsensePattern3_len {tl : String} {x : String}
    (h : x ∈ nonsensePattern3 tl) : x.length ≤ 3 :=
  p3scan_len _ _ _ _ h

theorem repeatEntry_ne (n : ℕ) : repeatEntry n ≠ "low word recognition ratio" := by
  intro h
  have h1 : (repeatEntry n).data.head? = some 'w' := rfl
  rw [h] at h1
  exact absurd h1 (by decide)

theorem signal_not_mem_base (tl : String) :
    "low word recognition ratio" ∉
      ((nonsensePattern1 tl).take 3 ++ (nonsensePattern2 tl).take 3
        ++ (nonsensePattern3 tl).take 3) := by
  intro h
  rcases List.mem_append.mp h with h12 | h3
  · rcases List.mem_append.mp h12 with h1 | h2
    · have := nonsensePattern1_short (List.mem_of_mem_take h1)
      exact absurd this (by decide)
    · have := nonsensePattern2_len (List.mem_of_mem_take h2)
      exact absurd this (by decide)
  · have := nonsensePattern3_len (List.mem_of_mem_take h3)
    exact absurd this (by decide)

theorem recognitionFrac_long (t : String)
    (hall : ∀ w ∈ pySplit (lowerS t), 3 < w.length)
    (hne : pySplit (lowerS t) ≠ []) : recognitionFrac t = 1 := by
  simp only [recognitionFrac]
  rw [if_neg hne]
  have hf : (pySplit (lowerS t)).filter isRecognized = pySplit (lowerS t) := by
    apply List.filter_eq_self.mpr
    intro a ha
    unfold isRecognized
    simp [hall a ha]
  rw [hf]
  apply div_self
  exact_mod_cast fun hz => hne (List.length_eq_zero.mp hz)

end MLEngine

namespace MLEngine

/-- C10: in nonsense detection any word longer than three characters counts
as recognized, so a transcript whose whitespace words all exceed three
characters has recognition fraction exactly 1 and never receives the low
word recognition ratio signal, even if no word is an English word. -/
theorem C10_recognition (t : String)
    (hall : ∀ w ∈ pySplit (lowerS t), 3 < w.length) :
    "low word recognition ratio" ∉ (detectNonsense t).patternsFound
    ∧ (pySplit (lowerS t) ≠ [] → recognitionFrac t = 1) := by
  refine ⟨?_, fun hne => recognitionFrac_long t hall hne⟩
  by_cases hearly : t = "" ∨ (pyStrip t).length < 5
  · simp [detectNonsense, if_pos hearly]
  · have hrec : ¬(recognitionFrac t < 3/10 ∧ 10 < (pySplit (lowerS t)).length) := by
      rintro ⟨hlt, hlen⟩
      have hne : pySplit (lowerS t) ≠ [] := by
        intro hz
        rw [hz] at hlen
        simp at hlen
      rw [recognitionFrac_long t hall hne] at hlt
      norm_num at hlt
    have hbase := signal_not_mem_base (lowerS t)
    have hrep : ∀ n : ℕ,
        "low word recognition ratio" ∉
          ((nonsensePattern1 (lowerS t)).take 3 ++ (nonsensePattern2 (lowerS t)).take 3
            ++ (nonsensePattern3 (lowerS t)).take 3 ++ [repeatEntry n]) := by
      intro n hmem
      rcases List.mem_append.mp hmem with hm | hm
      · exact hbase hm
      · simp only [List.mem_singleton] at hm
        exact repeatEntry_ne n hm.symm
    obtain ⟨hb1, hb2, hb3⟩ :
        "low word recognition ratio" ∉ (nonsensePattern1 (lowerS t)).take 3
        ∧ "low word recognition ratio" ∉ (nonsensePattern2 (lowerS t)).take 3
        ∧ "low word recognition ratio" ∉ (nonsensePattern3 (lowerS t)).take 3 := by
      simpa [List.mem_append, not_or] using hbase
    simp only [detectNonsense, if_neg hearly]
    split_ifs <;>
      first
        | (exact absurd ‹_ ∧ _› hrec)
        | (exact hrep _)
        | (exact hbase)
        | simp

/-- Witness for C10 on a transcript of four non-English five-letter words. -/
theorem C10_recognition_witness :
    "low word recognition ratio" ∉ (detectNonsense "zzxqw vvbnk ppqrs ttmnz").patternsFound
    ∧ (pySplit (lowerS "zzxqw vvbnk ppqrs ttmnz") ≠ []
        → recognitionFrac "zzxqw vvbnk ppqrs ttmnz" = 1) :=
  C10_recognition "zzxqw vvbnk ppqrs ttmnz" (by decide)

end MLEngine
